import Mathlib

/-!
Verification development for the SVG → Android Vector Drawable converter of
the `@zorimo/common` package (the `SVG2XML` module).

The repository contains two full converter variants:
* `V1` — `src/src/SVG2XML/SVG2XML.ts` (gradients, rotation groups, no filters);
* `V2` — the richer variant in `src/unnamed/part_002` (filters / drop shadows).

Numbers: the TypeScript code works with IEEE doubles obtained from
`parseFloat` on attribute strings.  We model a JavaScript number as
`Option ℚ`, where `none` stands for `NaN` and `some q` for a (finite) value;
arithmetic propagates `NaN`.  Float rounding is immaterial for every claim
below (all claim-relevant computations are exact in ℚ), and decimal literals
such as `0.552285` are taken at their exact rational value.
-/

/-- A JavaScript number: `none` models `NaN`, `some q` a finite value.
(JS infinities never arise from the attribute tokens modelled here.) -/
abbrev JSNum := Option ℚ

/-- NaN-propagating addition (`a + b` in JS). -/
def jadd : JSNum → JSNum → JSNum
  | some a, some b => some (a + b)
  | _, _ => none

/-- NaN-propagating subtraction. -/
def jsub : JSNum → JSNum → JSNum
  | some a, some b => some (a - b)
  | _, _ => none

/-- NaN-propagating multiplication. -/
def jmul : JSNum → JSNum → JSNum
  | some a, some b => some (a * b)
  | _, _ => none

/-- NaN-propagating negation (`-x` in JS). -/
def jneg : JSNum → JSNum
  | some a => some (-a)
  | none => none

@[simp] theorem jadd_some (a b : ℚ) : jadd (some a) (some b) = some (a + b) := rfl

@[simp] theorem jsub_some (a b : ℚ) : jsub (some a) (some b) = some (a - b) := rfl

@[simp] theorem jmul_some (a b : ℚ) : jmul (some a) (some b) = some (a * b) := rfl

@[simp] theorem jneg_some (a : ℚ) : jneg (some a) = some (-a) := rfl

/-- Numeric value of a decimal digit list (most significant first). -/
def natFromDigits (l : List Char) : ℕ :=
  l.foldl (fun a c => 10 * a + (c.toNat - 48)) 0

/-- Core decimal scanner shared by the models of `parseFloat` and `Number`:
optional sign, integer digits, optional `.` + fraction digits, optional
exponent; returns the parsed value and the unconsumed remainder, or `none`
when no digit is found. -/
def parseDecimalCore (l : List Char) : Option (ℚ × List Char) :=
  let sgn : ℚ := match l with
    | '-' :: _ => -1
    | _ => 1
  let l1 : List Char := match l with
    | '-' :: t => t
    | '+' :: t => t
    | _ => l
  let ip := l1.takeWhile Char.isDigit
  let r1 := l1.dropWhile Char.isDigit
  let fp : List Char := match r1 with
    | '.' :: t => t.takeWhile Char.isDigit
    | _ => []
  let r2 : List Char := match r1 with
    | '.' :: t => t.dropWhile Char.isDigit
    | _ => r1
  if ip.isEmpty && fp.isEmpty then none
  else
    let mant : ℚ := (natFromDigits ip : ℚ) + (natFromDigits fp : ℚ) / (10 : ℚ) ^ fp.length
    match r2 with
    | 'e' :: t | 'E' :: t =>
      let esgn : ℤ := match t with
        | '-' :: _ => -1
        | _ => 1
      let t1 : List Char := match t with
        | '-' :: u => u
        | '+' :: u => u
        | _ => t
      let ed := t1.takeWhile Char.isDigit
      if ed.isEmpty then some (sgn * mant, r2)
      else some (sgn * mant * (10 : ℚ) ^ (esgn * (natFromDigits ed : ℤ)), t1.dropWhile Char.isDigit)
    | _ => some (sgn * mant, r2)

/-- Model of JavaScript `parseFloat`: skip leading whitespace and take the
longest valid numeric prefix, `NaN` (`none`) when there is none.
(`Infinity` tokens are not modelled; no attribute value handled by the
claims produces one.) -/
def parseFloatQ (s : String) : JSNum :=
  match parseDecimalCore (s.data.dropWhile (fun c => c.isWhitespace)) with
  | none => none
  | some (q, _) => some q

/-- Model of JavaScript `Number(s)` on a plain decimal token: trimmed empty
input is `0`, otherwise the whole trimmed token must be numeric.
(Hex/octal/binary literals and `Infinity` are not modelled; the `viewBox`
tokens this is applied to are plain decimals.) -/
def parseNumberQ (s : String) : JSNum :=
  let t := ((s.data.dropWhile (fun c => c.isWhitespace)).reverse.dropWhile
    (fun c => c.isWhitespace)).reverse
  if t.isEmpty then some 0
  else
    match parseDecimalCore t with
    | some (q, []) => some q
    | _ => none

/-- `parseFloat (o)` where an absent attribute (`undefined`) yields `NaN`. -/
def parseFloatOpt (o : Option String) : JSNum :=
  match o with
  | none => none
  | some s => parseFloatQ s

/-- JavaScript `a || d` for an optional attribute string: an absent attribute
(`undefined`) and the empty string are falsy and select the default. -/
def jsOr (o : Option String) (d : String) : String :=
  match o with
  | none => d
  | some s => if s.data.isEmpty then d else s

/-- JavaScript truthiness of an optional attribute string: present and
non-empty. -/
def jsTruthyOpt (o : Option String) : Bool :=
  match o with
  | none => false
  | some s => !s.data.isEmpty

/-- JavaScript `s.startsWith(p)`. -/
def jsStartsWith (s p : String) : Bool :=
  p.data.isPrefixOf s.data

/-- JavaScript `s.slice(1)` (drop the first UTF-16 unit; all modelled strings
are ASCII). -/
def slice1 (s : String) : String :=
  ⟨s.data.drop 1⟩

/-- JavaScript `s.slice(5, -1)`: drop the first five characters and the last
one.  The converters use it to extract `id` from `url(#id)`. -/
def sliceUrl (s : String) : String :=
  ⟨(s.data.drop 5).dropLast⟩

/-- Hexadecimal rendering of a natural number, lowercase, as produced by
JavaScript `n.toString(16)` for non-negative integers. -/
def natToHex (n : ℕ) : String :=
  ⟨Nat.toDigits 16 n⟩

/-- JavaScript `n.toString(16)` for an integer (negative values render with a
leading minus sign). -/
def intToHex (n : ℤ) : String :=
  if n < 0 then "-" ++ natToHex n.natAbs else natToHex n.toNat

/-- JavaScript `s.padStart(len, c)`. -/
def padStart (s : String) (len : ℕ) (c : Char) : String :=
  ⟨List.replicate (len - s.data.length) c ++ s.data⟩

/-- The two-digit alpha byte computed by `convertColorWithOpacity`:
`Math.round(opacity * 255).toString(16).padStart(2, '0')`.
`Math.round` rounds half toward positive infinity, which is exactly
Mathlib's `round` (`⌊x + 1/2⌋`); `Math.round(NaN).toString(16)` is `"NaN"`,
left unchanged by `padStart(2)`. -/
def alphaHex (opacity : JSNum) : String :=
  padStart
    (match opacity with
      | none => "NaN"
      | some q => intToHex (round (q * 255)))
    2 '0'

/-- Case-insensitive hexadecimal digit, the `[a-f\d]` class (with the `i`
flag) of the `hexToRgb` regexes. -/
def isHexDig (c : Char) : Bool :=
  c.isDigit || ('a' ≤ c && c ≤ 'f') || ('A' ≤ c && c ≤ 'F')

/-- Numeric value of one hexadecimal digit. -/
def hexDigVal (c : Char) : ℕ :=
  if c.isDigit then c.toNat - 48
  else if 'a' ≤ c && c ≤ 'f' then c.toNat - 87
  else c.toNat - 55

/-- `parseInt(two-digit hex, 16)`. -/
def hexPairVal (a b : Char) : ℕ :=
  16 * hexDigVal a + hexDigVal b

/-- RGB triple produced by `hexToRgb` (exists only to certify that a hex
string is well formed; the channel values are never serialized). -/
structure RGBColor where
  r : ℕ
  g : ℕ
  b : ℕ
deriving DecidableEq, Repr

/-- The shorthand step of `hexToRgb`:
`hex.replace(/^#?([a-f\d])([a-f\d])([a-f\d])$/i, (_, r, g, b) => r+r+g+g+b+b)`.
A full-string match of `#?` plus exactly three hex digits is replaced by the
six doubled digits (the replacement drops the `#`); otherwise the string is
unchanged. -/
def shorthandExpand (l : List Char) : List Char :=
  match l with
  | ['#', a, b, c] =>
    if isHexDig a && isHexDig b && isHexDig c then [a, a, b, b, c, c] else l
  | [a, b, c] =>
    if isHexDig a && isHexDig b && isHexDig c then [a, a, b, b, c, c] else l
  | _ => l

/-- The full-form step of `hexToRgb`:
`/^#?([a-f\d]{2})([a-f\d]{2})([a-f\d]{2})$/i.exec(hex)`. -/
def hexFullMatch (l : List Char) : Option RGBColor :=
  let body : List Char := match l with
    | '#' :: t => t
    | _ => l
  match body with
  | [r1, r2, g1, g2, b1, b2] =>
    if (isHexDig r1 && isHexDig r2 && isHexDig g1 &&
        isHexDig g2 && isHexDig b1 && isHexDig b2) then
      some ⟨hexPairVal r1 r2, hexPairVal g1 g2, hexPairVal b1 b2⟩
    else none
  | _ => none

/-- `hexToRgb` (identical in every converter variant of the repository):
expand a shorthand hex code, then decode a 6-digit hex code, returning `null`
(`none`) for anything else. -/
def hexToRgb (hex : String) : Option RGBColor :=
  hexFullMatch (shorthandExpand hex.data)

/-- Transcription of one attempt, at a given start position, of the source
regex `/rgb$(\d+),\s*(\d+),\s*(\d+)$/` used by `convertColorWithOpacity`.
In JavaScript `$` (without the `m` flag) is an end-of-input assertion, not a
literal: after the literal `rgb` the pattern requires the end of the input
and then at least one digit, which no string can satisfy. -/
def rgbPatternAt (l : List Char) : Option (ℕ × ℕ × ℕ) :=
  match l with
  | 'r' :: 'g' :: 'b' :: rest =>
    -- `$`: assert end of input.
    if rest.isEmpty then
      match rest.takeWhile Char.isDigit with
      -- `(\d+)`: at least one digit must follow, but the input is exhausted.
      | [] => none
      -- Unreachable (takeWhile of the empty remainder is empty); the rest of
      -- the pattern `,\s*(\d+),\s*(\d+)$` is therefore never reached.
      | _ :: _ => none
    else none
  | _ => none

/-- Scan of the dead rgb regex over every start position, as `String.match`
does. -/
def jsRgbMatch : List Char → Option (ℕ × ℕ × ℕ)
  | [] => none
  | l@(_ :: rest) =>
    match rgbPatternAt l with
    | some x => some x
    | none => jsRgbMatch rest

theorem rgbPatternAt_eq_none (l : List Char) : rgbPatternAt l = none := by
  unfold rgbPatternAt
  split
  · split
    · split <;> rfl
    · rfl
  · rfl

/-- The rgb branch of `convertColorWithOpacity` is dead code: the regex
`/rgb$(\d+),\s*(\d+),\s*(\d+)$/` matches no string. -/
theorem jsRgbMatch_eq_none (l : List Char) : jsRgbMatch l = none := by
  induction l with
  | nil => rfl
  | cons c rest ih => rw [jsRgbMatch, rgbPatternAt_eq_none, ih]

/-- Core of `convertColorWithOpacity` (identical in every converter variant),
with the opacity already parsed to a JS number.  The source computes
`Math.round(parseFloat(opacity) * 255)` as a two-digit lowercase hex byte,
prepends it to `color.slice(1)` when `color` starts with `#` and passes
`hexToRgb` validation, would handle `rgb(r,g,b)` via a regex that can never
match (see `jsRgbMatch_eq_none`), and otherwise returns the color unchanged. -/
def convertColorWithOpacityQ (color : String) (opacity : JSNum) : String :=
  let alpha := alphaHex opacity
  if jsStartsWith color "#" && (hexToRgb color).isSome then
    "#" ++ alpha ++ slice1 color
  else
    match jsRgbMatch color.data with
    | some (r, g, b) =>
      "#" ++ alpha ++ padStart (natToHex r) 2 '0' ++ padStart (natToHex g) 2 '0'
        ++ padStart (natToHex b) 2 '0'
    | none => color

/-- `convertColorWithOpacity(color, opacity)` as in the source, taking the
opacity as the string attribute value. -/
def convertColorWithOpacity (color opacity : String) : String :=
  convertColorWithOpacityQ color (parseFloatQ opacity)

/-- Result of `processTransform` — rotation (JS number, `some 0` by default)
plus optional pivot coordinates (`undefined` when absent). -/
structure TransformResult where
  rotation : JSNum
  pivotX : Option JSNum
  pivotY : Option JSNum
deriving DecidableEq, Repr

/-- The `[-\d.]` character class of the rotate regex. -/
def isNumTok (c : Char) : Bool :=
  c.isDigit || c == '-' || c == '.'

/-- The `[\s,]` character class of the rotate regex. -/
def isSepTok (c : Char) : Bool :=
  c.isWhitespace || c == ','

/-- Matches `([-\d.]+)(?:[\s,]+([-\d.]+)[\s,]+([-\d.]+))?\)` at the head of
`l` (the part of `/rotate\(...\)/` after the literal `rotate(`), returning
the captured angle and, when the optional group participates, the two pivot
captures.  Because the number class `[-\d.]`, the separator class `[\s,]` and
the literal `)` are pairwise disjoint, the greedy backtracking search of the
JavaScript engine is equivalent to this deterministic maximal-munch scan. -/
def matchRotateArgs (l : List Char) : Option (String × Option (String × String)) :=
  let a := l.takeWhile isNumTok
  let r1 := l.dropWhile isNumTok
  if a.isEmpty then none
  else
    match r1 with
    | ')' :: _ => some (⟨a⟩, none)
    | _ =>
      let s1 := r1.takeWhile isSepTok
      let r2 := r1.dropWhile isSepTok
      if s1.isEmpty then none
      else
        let b := r2.takeWhile isNumTok
        let r3 := r2.dropWhile isNumTok
        if b.isEmpty then none
        else
          let s2 := r3.takeWhile isSepTok
          let r4 := r3.dropWhile isSepTok
          if s2.isEmpty then none
          else
            let c := r4.takeWhile isNumTok
            let r5 := r4.dropWhile isNumTok
            if c.isEmpty then none
            else
              match r5 with
              | ')' :: _ => some (⟨a⟩, some (⟨b⟩, ⟨c⟩))
              | _ => none

/-- `transform.match(/rotate\(([-\d.]+)(?:[\s,]+([-\d.]+)[\s,]+([-\d.]+))?\)/)`:
try each start position from the left; at a position whose text begins with
the literal `rotate(`, attempt the argument pattern; on failure resume the
scan at the next position. -/
def findRotate : List Char → Option (String × Option (String × String))
  | [] => none
  | l@(_ :: rest) =>
    if "rotate(".data.isPrefixOf l then
      match matchRotateArgs (l.drop 7) with
      | some res => some res
      | none => findRotate rest
    else findRotate rest

/-- `processTransform` (identical in `src/src/SVG2XML/SVG2XML.ts` and the
richer variant): rotation defaults to `0` with no pivot; a match of the
rotate regex sets the rotation to `parseFloat` of the first capture and, when
the optional pivot group participated (`rotateMatch[2] && rotateMatch[3]`,
always nonempty strings in that case), both pivots together. -/
def processTransform (transform : String) : TransformResult :=
  -- `if (!transform) return result` — the empty string is falsy.
  if transform.data.isEmpty then ⟨some 0, none, none⟩
  else
    match findRotate transform.data with
    | none => ⟨some 0, none, none⟩
    | some (a, piv) =>
      { rotation := parseFloatQ ⟨a.data⟩
        pivotX := piv.map (fun p => parseFloatQ p.1)
        pivotY := piv.map (fun p => parseFloatQ p.2) }

/-- Scan deciding whether `transform` contains the literal `rotate(`
anywhere (the only way the rotate regex can match). -/
def containsRotate : List Char → Bool
  | [] => false
  | l@(_ :: rest) => "rotate(".data.isPrefixOf l || containsRotate rest

/-- Evaluation helper: when the rounded alpha value is a (non-negative)
natural number, the alpha byte is its padded lowercase hex rendering. -/
theorem alphaHex_eval (q : ℚ) (n : ℕ) (h : round (q * 255) = (n : ℤ)) :
    alphaHex (some q) = padStart (natToHex n) 2 '0' := by
  simp only [alphaHex, intToHex, h]
  rw [if_neg (by omega : ¬((n : ℤ) < 0)), Int.toNat_natCast]

/-!  ## SVG element data model

Elements carry the raw attribute strings delivered by `xml2js`
(`element.$`): required geometry attributes as `String`, optional attributes
as `Option String` (`none` = attribute absent, i.e. `undefined`).
-/

/-- A parsed `<path>` element. -/
structure PathElement where
  d : String
  fill : Option String
  stroke : Option String
  strokeWidth : Option String
  transform : Option String
  filter : Option String
deriving DecidableEq, Repr

/-- A parsed `<circle>` element. -/
structure CircleElement where
  cx : String
  cy : String
  r : String
  fill : Option String
  stroke : Option String
  strokeWidth : Option String
  filter : Option String
deriving DecidableEq, Repr

/-- A parsed `<rect>` element. -/
structure RectElement where
  x : Option String
  y : Option String
  width : String
  height : String
  rx : Option String
  ry : Option String
  fill : Option String
  stroke : Option String
  strokeWidth : Option String
  transform : Option String
  filter : Option String
deriving DecidableEq, Repr

/-- A parsed `<line>` element. -/
structure LineElement where
  x1 : String
  y1 : String
  x2 : String
  y2 : String
  stroke : Option String
  strokeWidth : Option String
  filter : Option String
deriving DecidableEq, Repr

/-- A parsed gradient stop. -/
structure GradientStop where
  offset : Option String
  stopColor : String
  stopOpacity : Option String
deriving DecidableEq, Repr

/-- A parsed `<linearGradient>` element. -/
structure GradientElement where
  id : String
  type : Option String
  x1 : Option String
  y1 : Option String
  x2 : Option String
  y2 : Option String
  stops : List GradientStop
deriving DecidableEq, Repr

/-- A parsed `<feDropShadow>` element (attribute bag). -/
structure DropShadowEl where
  dx : Option String
  dy : Option String
  stdDeviation : Option String
  floodColor : Option String
  floodOpacity : Option String
deriving DecidableEq, Repr

/-- A parsed `<filter>` element: its id and its (possibly empty) list of
`feDropShadow` children. -/
structure FilterElement where
  id : String
  feDropShadow : List DropShadowEl
deriving DecidableEq, Repr

/-- A parsed animation element (`<animate>` / `<animateTransform>`).
The `from`/`to` attributes are modelled as `fromAttr`/`toAttr` (`from` is a
Lean keyword). -/
structure AnimationElement where
  attributeName : String
  dur : Option String
  fromAttr : Option String
  toAttr : Option String
  repeatCount : Option String
deriving DecidableEq, Repr

/-- A parsed `<g>` element with its nested shapes and nested groups
(`xml2js` groups children by tag, preserving per-tag document order). -/
inductive GroupElement where
  | mk (transform : Option String) (paths : List PathElement)
      (circles : List CircleElement) (rects : List RectElement)
      (gs : List GroupElement)

/-!  ## Path data

The synthesized `android:pathData` strings are modelled structurally as
command lists; the numeric interpolations of the source's template strings
become the command arguments, in the same order.
-/

/-- One SVG path command as emitted by the geometry synthesizers.
`hRel`/`vRel` are the relative `h`/`v` commands. -/
inductive PathCmd where
  | M (x y : JSNum)
  | C (x1 y1 x2 y2 x y : JSNum)
  | L (x y : JSNum)
  | Q (x1 y1 x y : JSNum)
  | hRel (dx : JSNum)
  | vRel (dy : JSNum)
  | Z
deriving DecidableEq, Repr

/-- The Bézier control-point factor `0.552285` of `convertCircle`, at its
exact decimal value. -/
def kCircle : ℚ := 552285 / 1000000

/-- The path data synthesized by `convertCircle` (identical in
`src/src/SVG2XML/SVG2XML.ts` lines 67–71 and the richer variant):
`M cx (cy-r)` followed by four cubic segments and `Z`. -/
def circlePathData (cx cy r : JSNum) : List PathCmd :=
  let k : JSNum := some kCircle
  [ .M cx (jsub cy r)
  , .C (jadd cx (jmul r k)) (jsub cy r) (jadd cx r) (jsub cy (jmul r k)) (jadd cx r) cy
  , .C (jadd cx r) (jadd cy (jmul r k)) (jadd cx (jmul r k)) (jadd cy r) cx (jadd cy r)
  , .C (jsub cx (jmul r k)) (jadd cy r) (jsub cx r) (jadd cy (jmul r k)) (jsub cx r) cy
  , .C (jsub cx r) (jsub cy (jmul r k)) (jsub cx (jmul r k)) (jsub cy r) cx (jsub cy r)
  , .Z ]

/-- The path data synthesized by `convertRect` (identical in both variants).
With both radii equal to zero: the four-segment rectangle; otherwise the
8-segment rounded rectangle with quadratic corner curves.  The equality
tests are JavaScript `rx === 0 && ry === 0` (false for `NaN`). -/
def rectPathData (x y width height rx ry : JSNum) : List PathCmd :=
  if rx = some 0 && ry = some 0 then
    [ .M x y, .hRel width, .vRel height, .hRel (jneg width), .Z ]
  else
    [ .M (jadd x rx) y
    , .L (jsub (jadd x width) rx) y
    , .Q (jadd x width) y (jadd x width) (jadd y ry)
    , .L (jadd x width) (jsub (jadd y height) ry)
    , .Q (jadd x width) (jadd y height) (jsub (jadd x width) rx) (jadd y height)
    , .L (jadd x rx) (jadd y height)
    , .Q x (jadd y height) x (jsub (jadd y height) ry)
    , .L x (jadd y ry)
    , .Q x y (jadd x rx) y
    , .Z ]

/-- Synthesized or passed-through path data of an emitted `<path>`:
`raw` is a passthrough / string-interpolated value, `cmds` a synthesized
command list. -/
inductive PData where
  | raw (s : String)
  | cmds (l : List PathCmd)
deriving DecidableEq, Repr

/-- Rotation-group wrapper decided by `convertPath`/`convertRect` (both
variants): present exactly when a `transform` attribute is given (truthy) and
the parsed rotation is `!== 0` (true also for `NaN`); pivot attributes are
printed only when defined. -/
structure GroupWrap where
  rotation : JSNum
  pivotX : Option JSNum
  pivotY : Option JSNum
deriving DecidableEq, Repr

/-- `if (transform) { const pt = processTransform(transform); if (pt.rotation !== 0) wrap }`. -/
def rotationWrap (transform : Option String) : Option GroupWrap :=
  match transform with
  | none => none
  | some t =>
    if t.data.isEmpty then none
    else
      let pt := processTransform t
      if pt.rotation = some 0 then none
      else some ⟨pt.rotation, pt.pivotX, pt.pivotY⟩

/-- `s || d` for two present strings (the second link of an `||` chain). -/
def jsOrStr (a d : String) : String :=
  if a.data.isEmpty then d else a

/-- JavaScript object used as a string-keyed map: `m[k] = v` overwrites an
existing entry, else appends. -/
def mapSet (m : List (String × α)) (k : String) (v : α) : List (String × α) :=
  match m with
  | [] => [(k, v)]
  | (k', v') :: rest => if k' = k then (k, v) :: rest else (k', v') :: mapSet rest k v

/-!  ## V2 — the richer converter variant (`src/unnamed/part_002`)

This variant supports `<filter>` drop shadows.  Its emitted XML fragments are
modelled structurally: one record field per interpolated attribute, in source
order; conditional template pieces become `Option` fields.
-/

namespace V2

/-- The `filters` registry (`let filters: { [key: string]: FilterElement }`),
keyed by filter id. -/
abbrev FilterRegistry := List (String × FilterElement)

/-- `convertColor` of the richer variant (part_002 lines 80–103). -/
def convertColor (color : Option String) : String :=
  match color with
  | none => "#FF373737"
  | some c =>
    if c.data.isEmpty then "#FF373737"
    else if c = "none" then "@android:color/transparent"
    else if c = "#373737" then "#FF373737"
    else if c = "white" then "#FFFFFFFF"
    -- the colorMap lookup (the `white` entry is unreachable behind the
    -- special case above, with the same value)
    else if c = "white" then "#FFFFFFFF"
    else if c = "black" then "#FF000000"
    else if c = "red" then "#FFFF0000"
    else if c = "blue" then "#FF0000FF"
    else if c = "green" then "#FF00FF00"
    else if jsStartsWith c "#" then
      if c.length = 7 then "#FF" ++ slice1 c else c
    else "#FF373737"

/-- The shadow parameters produced by `convertFilter`. -/
structure ShadowEffect where
  shadowColor : String
  dx : JSNum
  dy : JSNum
deriving DecidableEq, Repr

/-- `convertFilter` (part_002 lines 273–286).  Without a first `feDropShadow`
child it returns the fixed fallback `{shadowColor: '#33373737', dx: 0, dy: 4}`;
otherwise it parses the sub-attributes with defaults `dx=0`, `dy=0`,
`stdDeviation=2`, `flood-color='#000000'`, `flood-opacity=0.2` and returns
`dy + stdDeviation` as the vertical offset.  The source stringifies the
parsed flood opacity and re-parses it inside `convertColorWithOpacity`
(`floodOpacity.toString()`); since `parseFloat ∘ toString` is the identity on
parsed values, the embedding passes the numeric value directly. -/
def convertFilter (filter : FilterElement) : ShadowEffect :=
  match filter.feDropShadow.head? with
  | none => ⟨"#33373737", some 0, some 4⟩
  | some shadow =>
    let dx := parseFloatQ (jsOr shadow.dx "0")
    let dy := parseFloatQ (jsOr shadow.dy "0")
    let stdDeviation := parseFloatQ (jsOr shadow.stdDeviation "2")
    let floodColor := jsOr shadow.floodColor "#000000"
    let floodOpacity := parseFloatQ (jsOr shadow.floodOpacity "0.2")
    let shadowColor := convertColorWithOpacityQ floodColor floodOpacity
    ⟨shadowColor, dx, jadd dy stdDeviation⟩

/-- `applyFilter` (part_002 lines 169–175): the translate attribute pair for
a registered filter id, nothing (the empty string) otherwise. -/
def applyFilter (filters : FilterRegistry) (filterId : String) : Option (JSNum × JSNum) :=
  match List.lookup filterId filters with
  | none => none
  | some f =>
    let eff := convertFilter f
    some (eff.dx, eff.dy)

/-- The `if (element.$['filter']) { filterEffect = applyFilter(slice(5,-1)) }`
pattern shared by the circle/line/path converters. -/
def filterEffectOf (filters : FilterRegistry) (fa : Option String) : Option (JSNum × JSNum) :=
  match fa with
  | none => none
  | some a => if a.data.isEmpty then none else applyFilter filters (sliceUrl a)

/-- An emitted `<path>` fragment of the richer variant: path data, optional
fill/stroke attributes, and the optional filter translate pair. -/
structure VDShape2 where
  pathData : PData
  fillColor : Option String
  strokeColor : Option String
  strokeWidth : Option String
  translate : Option (JSNum × JSNum)
deriving DecidableEq, Repr

/-- `convertCircle` (part_002 lines 245–271). -/
def convertCircle (filters : FilterRegistry) (c : CircleElement) : VDShape2 :=
  let cx := parseFloatQ c.cx
  let cy := parseFloatQ c.cy
  let r := parseFloatQ c.r
  let fill := jsOr c.fill "#000000"
  { pathData := .cmds (circlePathData cx cy r)
    fillColor := some (convertColor (some fill))
    strokeColor := if jsTruthyOpt c.stroke then some (convertColor c.stroke) else none
    strokeWidth := if jsTruthyOpt c.strokeWidth then c.strokeWidth else none
    translate := filterEffectOf filters c.filter }

/-- `convertRect` (part_002 lines 380–434).  Note line 424:
`filterEffect = applyFilter[filterId] || ''` indexes the `applyFilter`
function object instead of calling it, which yields `undefined || '' = ''`;
rect primaries therefore never carry translate attributes. -/
def convertRect (re : RectElement) : Option GroupWrap × VDShape2 :=
  let wrap := rotationWrap re.transform
  let x := parseFloatQ (jsOr re.x "0")
  let y := parseFloatQ (jsOr re.y "0")
  let width := parseFloatQ re.width
  let height := parseFloatQ re.height
  let rxValue := jsOr re.rx "0"
  let ryValue := jsOrStr (jsOr re.ry rxValue) "0"
  let rx := parseFloatQ rxValue
  let ry := parseFloatQ ryValue
  (wrap,
    { pathData := .cmds (rectPathData x y width height rx ry)
      fillColor := some (convertColor re.fill)
      strokeColor := if jsTruthyOpt re.stroke then some (convertColor re.stroke) else none
      strokeWidth := if jsTruthyOpt re.strokeWidth then re.strokeWidth else none
      translate := none })

/-- `convertLine` (part_002 lines 321–335). -/
def convertLine (filters : FilterRegistry) (l : LineElement) : VDShape2 :=
  let strokeWidth := jsOr l.strokeWidth "1"
  let linePath := "M" ++ l.x1 ++ "," ++ l.y1 ++ " L" ++ l.x2 ++ "," ++ l.y2
  { pathData := .raw linePath
    fillColor := none
    strokeColor := some (convertColor l.stroke)
    strokeWidth := some strokeWidth
    translate := filterEffectOf filters l.filter }

/-- `convertPath` (part_002 lines 342–373), at its only call sites
(`isFirstGroup = false`, so `fill = path.$.fill || undefined`). -/
def convertPath (filters : FilterRegistry) (p : PathElement) : Option GroupWrap × VDShape2 :=
  let wrap := rotationWrap p.transform
  let fill : Option String := if jsTruthyOpt p.fill then p.fill else none
  (wrap,
    { pathData := .raw p.d
      fillColor := match fill with
        | some f => some (convertColor (some f))
        | none => none
      strokeColor := if jsTruthyOpt p.stroke then some (convertColor p.stroke) else none
      strokeWidth := if jsTruthyOpt p.strokeWidth then p.strokeWidth else none
      translate := filterEffectOf filters p.filter })

/-- A top-level shape element processed by `processElement`. -/
inductive Shape2 where
  | circle (c : CircleElement)
  | rect (r : RectElement)
  | line (l : LineElement)
  | path (p : PathElement)
deriving DecidableEq, Repr

/-- The `filter` attribute of a shape. -/
def Shape2.filterAttr : Shape2 → Option String
  | .circle c => c.filter
  | .rect r => r.filter
  | .line l => l.filter
  | .path p => p.filter

/-- One emitted XML fragment of the richer variant: a converted primary
element (with its optional rotation wrapper) or a synthesized shadow copy. -/
inductive Emitted2 where
  | pathP (wrap : Option GroupWrap) (s : VDShape2)
  | circleP (s : VDShape2)
  | rectP (wrap : Option GroupWrap) (s : VDShape2)
  | lineP (s : VDShape2)
  | shadowPath (pathData : String) (fillColor : String) (translate : JSNum × JSNum)
  | shadowCircle (cx cy r : String) (fillColor : String) (translate : JSNum × JSNum)
  | shadowRect (x y : Option String) (width height : String) (fillColor : String)
      (translate : JSNum × JSNum)
  | shadowLine (x1 y1 x2 y2 : String) (strokeColor : String) (strokeWidth : String)
      (translate : JSNum × JSNum)
deriving DecidableEq, Repr

/-- The normal (primary) conversion of one top-level shape, as dispatched by
the `processElement` call sites in `convertSvgToAndroidVector`. -/
def convertShape (filters : FilterRegistry) : Shape2 → Emitted2
  | .circle c => .circleP (convertCircle filters c)
  | .rect r => .rectP (convertRect r).1 (convertRect r).2
  | .line l => .lineP (convertLine filters l)
  | .path p => .pathP (convertPath filters p).1 (convertPath filters p).2

/-- `applyDropShadow` (part_002 lines 186–238): with a registered filter,
prepend a shadow copy built from the element's geometry attributes, the
filter's shadow color and its translate offsets.  For a `path` the geometry
is recovered from the primary XML by the regex `android:pathData="([^"]+)"`
(the capture is the longest quote-free prefix of the interpolated `d`, and a
failed match falls back to `element.$.d`); an empty path datum triggers the
warning branch, which emits no shadow. -/
def applyDropShadow (filters : FilterRegistry) (originalE : Emitted2) (filterId : String)
    (s : Shape2) : List Emitted2 :=
  match List.lookup filterId filters with
  | none => [originalE]
  | some filt =>
    let eff := convertFilter filt
    match s with
    | .path p =>
      let capture := p.d.data.takeWhile (fun c => c ≠ '"')
      let pathData : String := if capture.isEmpty then p.d else ⟨capture⟩
      if pathData.data.isEmpty then [originalE]
      else [.shadowPath pathData eff.shadowColor (eff.dx, eff.dy), originalE]
    | .circle c =>
      [.shadowCircle c.cx c.cy c.r eff.shadowColor (eff.dx, eff.dy), originalE]
    | .rect r =>
      [.shadowRect r.x r.y r.width r.height eff.shadowColor (eff.dx, eff.dy), originalE]
    | .line l =>
      [.shadowLine l.x1 l.y1 l.x2 l.y2 eff.shadowColor (jsOr l.strokeWidth "1")
        (eff.dx, eff.dy), originalE]

/-- `processElement` (part_002 lines 443–450): convert the element, then
apply the drop shadow when a `filter` attribute is present. -/
def processShape (filters : FilterRegistry) (s : Shape2) : List Emitted2 :=
  let xml := convertShape filters s
  match s.filterAttr with
  | none => [xml]
  | some fa =>
    if fa.data.isEmpty then [xml]
    else applyDropShadow filters xml (sliceUrl fa) s

/-- Geometry signature used to compare a shadow copy with its source shape. -/
inductive GeomSig where
  | gPath (d : String)
  | gCircle (cx cy r : String)
  | gRect (x y : Option String) (w h : String)
  | gLine (x1 y1 x2 y2 : String)
deriving DecidableEq, Repr

/-- The geometry attributes of a shape element. -/
def Shape2.geomSig : Shape2 → GeomSig
  | .circle c => .gCircle c.cx c.cy c.r
  | .rect r => .gRect r.x r.y r.width r.height
  | .line l => .gLine l.x1 l.y1 l.x2 l.y2
  | .path p => .gPath p.d

/-- The geometry carried by a shadow fragment (`none` for primaries). -/
def Emitted2.geomSigOf : Emitted2 → Option GeomSig
  | .shadowPath d _ _ => some (.gPath d)
  | .shadowCircle cx cy r _ _ => some (.gCircle cx cy r)
  | .shadowRect x y w h _ _ => some (.gRect x y w h)
  | .shadowLine x1 y1 x2 y2 _ _ _ => some (.gLine x1 y1 x2 y2)
  | _ => none

/-- The fill/stroke color of a shadow fragment (`none` for primaries). -/
def Emitted2.shadowColorOf : Emitted2 → Option String
  | .shadowPath _ f _ => some f
  | .shadowCircle _ _ _ f _ => some f
  | .shadowRect _ _ _ _ f _ => some f
  | .shadowLine _ _ _ _ f _ _ => some f
  | _ => none

/-- The translate offsets of a shadow fragment (`none` for primaries). -/
def Emitted2.shadowTranslateOf : Emitted2 → Option (JSNum × JSNum)
  | .shadowPath _ _ t => some t
  | .shadowCircle _ _ _ _ t => some t
  | .shadowRect _ _ _ _ _ t => some t
  | .shadowLine _ _ _ _ _ _ t => some t
  | _ => none

end V2

/-!  ## V1 — the converter of `src/src/SVG2XML/SVG2XML.ts`

This variant supports gradients and rotation groups but no filters.  Its
top-level element order and its write discipline are modelled down to the
document assembler; the conditional newline separators the source splices
between fragments are string formatting and are not part of the structured
model.
-/

namespace V1

/-- `getPropertyName` (lines 11–20). -/
def getPropertyName (svgAttribute : String) : String :=
  if svgAttribute = "opacity" then "alpha"
  else if svgAttribute = "transform" then "rotation"
  else if svgAttribute = "cx" then "x"
  else if svgAttribute = "cy" then "y"
  else if svgAttribute = "r" then "radius"
  else svgAttribute

/-- One emitted `<objectAnimator>` fragment. -/
structure AnimOut where
  propertyName : String
  duration : String
  valueFrom : String
  valueTo : String
  repeatCount : String
deriving DecidableEq, Repr

/-- `convertAnimation` (lines 46–55). -/
def convertAnimation (a : AnimationElement) : AnimOut :=
  { propertyName := getPropertyName a.attributeName
    duration := jsOr a.dur "1000"
    valueFrom := jsOr a.fromAttr "0"
    valueTo := jsOr a.toAttr "1"
    repeatCount := jsOr a.repeatCount "infinite" }

/-- `convertColor` of the plain variant (lines 89–110). -/
def convertColor (color : Option String) : String :=
  match color with
  | none => "#000000"
  | some c =>
    if c.data.isEmpty then "#000000"
    else if c = "none" then "@android:color/transparent"
    else if c = "white" then "#FFFFFF"
    else if c = "black" then "#000000"
    else if c = "red" then "#FF0000"
    else if c = "blue" then "#0000FF"
    else if c = "green" then "#00FF00"
    else if jsStartsWith c "#" || jsStartsWith c "rgb" then c
    else "#000000"

/-- One `<item>` of an emitted gradient block. -/
structure GradItem where
  offset : Option String
  color : String
deriving DecidableEq, Repr

/-- An emitted `<gradient>` block (`aapt:attr` child). -/
structure GradientBlock where
  startX : String
  startY : String
  endX : String
  endY : String
  items : List GradItem
deriving DecidableEq, Repr

/-- `convertGradient` (lines 145–166): only `linear`/`linearGradient` types
produce a block (the source returns the empty string otherwise). -/
def convertGradient (g : GradientElement) : Option GradientBlock :=
  if g.type = some "linear" || g.type = some "linearGradient" then
    some
      { startX := jsOr g.x1 "0%"
        startY := jsOr g.y1 "0%"
        endX := jsOr g.x2 "100%"
        endY := jsOr g.y2 "0%"
        items := g.stops.map (fun st =>
          { offset := st.offset
            color :=
              match st.stopOpacity with
              | some o =>
                if o.data.isEmpty then st.stopColor
                else convertColorWithOpacity st.stopColor o
              | none => st.stopColor }) }
  else none

/-- An emitted `<path>` fragment of the plain variant.  In the gradient
branch the fragment carries a nested gradient child and no `fillColor`
attribute; in the flat branch it carries a `fillColor` and no child. -/
structure VDShape where
  pathData : PData
  fillColor : Option String
  strokeColor : Option String
  strokeWidth : Option String
  gradientChild : Option (Option GradientBlock)
deriving DecidableEq, Repr

/-- `convertCircle` (lines 62–82). -/
def convertCircle (c : CircleElement) : VDShape :=
  { pathData := .cmds (circlePathData (parseFloatQ c.cx) (parseFloatQ c.cy) (parseFloatQ c.r))
    fillColor := some (convertColor (some (jsOr c.fill "#000000")))
    strokeColor := if jsTruthyOpt c.stroke then some (convertColor c.stroke) else none
    strokeWidth := if jsTruthyOpt c.strokeWidth then c.strokeWidth else none
    gradientChild := none }

/-- `convertLine` (lines 173–180). -/
def convertLine (l : LineElement) : VDShape :=
  { pathData := .raw ("M" ++ l.x1 ++ "," ++ l.y1 ++ " L" ++ l.x2 ++ "," ++ l.y2)
    fillColor := none
    strokeColor := some (convertColor l.stroke)
    strokeWidth := some (jsOr l.strokeWidth "1")
    gradientChild := none }

/-- `convertRect` (lines 233–283). -/
def convertRect (re : RectElement) : Option GroupWrap × VDShape :=
  let wrap := rotationWrap re.transform
  let x := parseFloatQ (jsOr re.x "0")
  let y := parseFloatQ (jsOr re.y "0")
  let width := parseFloatQ re.width
  let height := parseFloatQ re.height
  let rxValue := jsOr re.rx "0"
  let ryValue := jsOrStr (jsOr re.ry rxValue) "0"
  let rx := parseFloatQ rxValue
  let ry := parseFloatQ ryValue
  (wrap,
    { pathData := .cmds (rectPathData x y width height rx ry)
      fillColor := some (convertColor re.fill)
      strokeColor := if jsTruthyOpt re.stroke then some (convertColor re.stroke) else none
      strokeWidth := if jsTruthyOpt re.strokeWidth then re.strokeWidth else none
      gradientChild := none })

/-- The gradient registry built from `<defs>` (`gradientMap`). -/
abbrev GradientRegistry := List (String × GradientElement)

/-- The flat-fill rendering of a `<path>` element (lines 219–223). -/
def flatPathShape (p : PathElement) : VDShape :=
  { pathData := .raw p.d
    fillColor := some (convertColor p.fill)
    strokeColor := if jsTruthyOpt p.stroke then some (convertColor p.stroke) else none
    strokeWidth := if jsTruthyOpt p.strokeWidth then p.strokeWidth else none
    gradientChild := none }

/-- `convertPath` (lines 187–226): a truthy `fill` starting with `url(#`
whose id resolves in the gradient registry renders the gradient branch
(nested gradient child, no `fillColor` attribute); everything else renders
the flat branch. -/
def convertPath (gm : GradientRegistry) (p : PathElement) : Option GroupWrap × VDShape :=
  let wrap := rotationWrap p.transform
  match p.fill with
  | some f =>
    if !f.data.isEmpty && jsStartsWith f "url(#" then
      match List.lookup (sliceUrl f) gm with
      | some gradient =>
        (wrap,
          { pathData := .raw p.d
            fillColor := none
            strokeColor := if jsTruthyOpt p.stroke then some (convertColor p.stroke) else none
            strokeWidth := if jsTruthyOpt p.strokeWidth then p.strokeWidth else none
            gradientChild := some (convertGradient gradient) })
      | none => (wrap, flatPathShape p)
    else (wrap, flatPathShape p)
  | none => (wrap, flatPathShape p)

/-- One fragment of the assembled document body. -/
inductive Emitted where
  | animG (xs : List AnimOut)
  | pathE (wrap : Option GroupWrap) (s : VDShape)
  | rectE (wrap : Option GroupWrap) (s : VDShape)
  | circleE (s : VDShape)
  | lineE (s : VDShape)
  | groupE (rotation : Option JSNum) (pivotX pivotY : Option JSNum)
      (children : List Emitted)

/-- `handleGroup` (lines 398–447): the `<group>` wrapper always appears; the
rotation attribute is printed only when the parsed rotation is `!== 0`, the
pivots whenever defined.  Children: nested paths, circles, rects and groups
(`<line>` children are not handled — a known gap). -/
def handleGroup (gm : GradientRegistry) : GroupElement → Emitted
  | .mk transform paths circles rects gs =>
    let attrs : Option JSNum × Option JSNum × Option JSNum :=
      match transform with
      | none => (none, none, none)
      | some t =>
        if t.data.isEmpty then (none, none, none)
        else
          let pt := processTransform t
          ((if pt.rotation = some 0 then none else some pt.rotation), pt.pivotX, pt.pivotY)
    .groupE attrs.1 attrs.2.1 attrs.2.2
      ((paths.map (fun p => Emitted.pathE (convertPath gm p).1 (convertPath gm p).2)) ++
        (circles.map (fun c => Emitted.circleE (convertCircle c))) ++
        (rects.map (fun r => Emitted.rectE (convertRect r).1 (convertRect r).2)) ++
        (gs.attach.map (fun g => handleGroup gm g.1)))
  decreasing_by
    have := g.2
    simp [GroupElement.mk.sizeOf_spec]
    calc sizeOf g.1 < sizeOf gs := List.sizeOf_lt_of_mem this
      _ < 1 + sizeOf transform + sizeOf paths + sizeOf circles + sizeOf rects + sizeOf gs := by
          omega

end V1

/-- Content of a `<defs>` block, grouped by tag. -/
structure DefsBlock where
  linearGradient : List GradientElement
  filter : List FilterElement
deriving DecidableEq, Repr

/-- A parsed SVG document (`result.svg`): root attributes and children
grouped by tag, each tag's list in document order (`xml2js` semantics; an
absent tag is the empty list). -/
structure SvgDoc where
  width : Option String
  height : Option String
  viewBox : Option String
  defs : List DefsBlock
  animates : List AnimationElement
  animateTransforms : List AnimationElement
  paths : List PathElement
  rects : List RectElement
  circles : List CircleElement
  lines : List LineElement
  gs : List GroupElement

/-- Remove the first occurrence of `pat` from `l` (JavaScript
`s.replace('px', '')` with a string pattern replaces only the first
occurrence). -/
def removeFirst (pat : List Char) : List Char → List Char
  | [] => []
  | c :: rest =>
    if pat.isPrefixOf (c :: rest) then (c :: rest).drop pat.length
    else c :: removeFirst pat rest

/-- JavaScript `s.split(' ')` (split at every single space, keeping empty
segments). -/
def splitChar (sep : Char) : List Char → List (List Char)
  | [] => [[]]
  | c :: rest =>
    match splitChar sep rest with
    | [] => [[c]]
    | h :: t => if c = sep then [] :: h :: t else (c :: h) :: t

namespace V1

/-- The `<vector>` header attributes (lines 301–311):
`width`/`height` are the root attributes with a first `px` stripped,
defaulting to `100`; the viewport sizes are entries 2 and 3 of
`viewBox.split(' ').map(Number)`, defaulting to `[0, 0, 100, 100]`
(`none` models JavaScript `undefined` when the split has fewer entries). -/
structure VectorHeader where
  width : String
  height : String
  viewportWidth : Option JSNum
  viewportHeight : Option JSNum
deriving DecidableEq, Repr

/-- `width?.replace('px', '') || '100'` (and the same for `height`). -/
def headerSize (attr : Option String) : String :=
  match attr with
  | none => "100"
  | some w => jsOrStr ⟨removeFirst "px".data w.data⟩ "100"

/-- `viewBox?.split(' ').map(Number) || [0, 0, 100, 100]`. -/
def viewBoxNums (attr : Option String) : List JSNum :=
  match attr with
  | none => [some 0, some 0, some 100, some 100]
  | some vb => (splitChar ' ' vb.data).map (fun t => parseNumberQ ⟨t⟩)

/-- The assembled header of the output document. -/
def headerOf (doc : SvgDoc) : VectorHeader :=
  let vb := viewBoxNums doc.viewBox
  { width := headerSize doc.width
    height := headerSize doc.height
    viewportWidth := vb[2]?
    viewportHeight := vb[3]? }

/-- Registry construction (lines 314–322): the first `<defs>` block's
`linearGradient` children are stored under their id, after the source
mutates `gradient.$.type = gradient.$.type || 'linear'`. -/
def buildGradientRegistry (doc : SvgDoc) : GradientRegistry :=
  match doc.defs.head? with
  | none => []
  | some d =>
    d.linearGradient.foldl
      (fun m g =>
        let g' := { g with type := some (jsOr g.type "linear") }
        mapSet m g'.id g')
      []

/-- The body of the assembled document (lines 324–381), in emission order:
the animation `<group>` (when any animation is present), then every `<path>`,
then every `<rect>`, then every `<circle>`, then every `<line>`, then every
`<g>`.  The conditional `\n` separators the source appends between
fragments are string formatting and are not modelled. -/
def assembleBody (doc : SvgDoc) : List Emitted :=
  let gm := buildGradientRegistry doc
  (if doc.animates.isEmpty && doc.animateTransforms.isEmpty then []
    else
      [Emitted.animG
        (doc.animates.map convertAnimation ++ doc.animateTransforms.map convertAnimation)]) ++
  doc.paths.map (fun p => Emitted.pathE (convertPath gm p).1 (convertPath gm p).2) ++
  doc.rects.map (fun r => Emitted.rectE (convertRect r).1 (convertRect r).2) ++
  doc.circles.map (fun c => Emitted.circleE (convertCircle c)) ++
  doc.lines.map (fun l => Emitted.lineE (convertLine l)) ++
  doc.gs.map (handleGroup gm)

/-- The complete assembled `<vector>` document (header, body, and the
closing `</vector>` terminator the serializer appends last). -/
structure VectorDoc where
  header : VectorHeader
  body : List Emitted
  closed : Bool

/-- `vectorXml` as completed just before the write (line 383). -/
def assemble (doc : SvgDoc) : VectorDoc :=
  { header := headerOf doc, body := assembleBody doc, closed := true }

/-- Observable effects of one `convertSvgToAndroidVector` invocation:
whether a parse error was reported and the list of file writes (the source
performs a single `fs.writeFileSync(outputFile, vectorXml)` at line 385,
after the whole string is built in memory). -/
structure RunResult where
  errorReported : Bool
  writes : List VectorDoc

/-- The conversion run (lines 290–388) as a function of the parse outcome
delivered to the `parseString` callback: on a parse error the error is
reported and the callback returns without writing; on success the complete
document is assembled in memory and written in one step. -/
def run (parsed : Except String SvgDoc) : RunResult :=
  match parsed with
  | .error _ => { errorReported := true, writes := [] }
  | .ok doc => { errorReported := false, writes := [assemble doc] }

/-- Classification of body fragments, used to state emission-order facts. -/
inductive Kind where
  | anim
  | path
  | rect
  | circle
  | line
  | group
deriving DecidableEq, Repr

/-- The kind of one emitted fragment. -/
def kindOf : Emitted → Kind
  | .animG _ => .anim
  | .pathE _ _ => .path
  | .rectE _ _ => .rect
  | .circleE _ => .circle
  | .lineE _ => .line
  | .groupE _ _ _ _ => .group

/-- Rank of a kind in the emission order of `assembleBody`. -/
def rankOf : Kind → ℕ
  | .anim => 0
  | .path => 1
  | .rect => 2
  | .circle => 3
  | .line => 4
  | .group => 5

end V1

namespace V2

/-- JavaScript truthiness of an optional numeric value: `undefined`, `NaN`
and `0` are falsy (used by the richer variant's `handleGroup` for its pivot
attributes). -/
def jsTruthyNum (o : Option JSNum) : Bool :=
  match o with
  | some (some q) => decide (q ≠ 0)
  | _ => false

/-- One fragment produced by the richer variant's group walker: nested
shapes are converted by `convertPath`/`convertCircle`/`convertRect` (no
`processElement`, so no shadow synthesis inside groups; `<line>` children
are not handled — the known gap). -/
inductive GEmitted2 where
  | pathG (wrap : Option GroupWrap) (s : VDShape2)
  | circleG (s : VDShape2)
  | rectG (wrap : Option GroupWrap) (s : VDShape2)
  | groupG (rotation : JSNum) (pivotX pivotY : Option JSNum)
      (children : List GEmitted2)

/-- `handleGroup` of the richer variant (part_002 lines 460–498): with a
truthy `transform` the children are wrapped in one `<group>` carrying the
parsed rotation (always printed, even `0`) and each pivot only when truthy;
without one, `groupStart`/`groupEnd` stay empty and the children are spliced
bare into the surrounding output.  The cosmetic `indentLevel` parameter is
not modelled. -/
def handleGroup (filters : FilterRegistry) : GroupElement → List GEmitted2
  | .mk transform paths circles rects gs =>
    let children : List GEmitted2 :=
      (paths.map (fun p => GEmitted2.pathG (convertPath filters p).1
        (convertPath filters p).2)) ++
      (circles.map (fun c => GEmitted2.circleG (convertCircle filters c))) ++
      (rects.map (fun r => GEmitted2.rectG (convertRect r).1 (convertRect r).2)) ++
      ((gs.attach.map (fun g => handleGroup filters g.1)).join)
    match transform with
    | none => children
    | some t =>
      if t.data.isEmpty then children
      else
        let pt := processTransform t
        [GEmitted2.groupG pt.rotation
          (if jsTruthyNum pt.pivotX then pt.pivotX else none)
          (if jsTruthyNum pt.pivotY then pt.pivotY else none)
          children]
  decreasing_by
    have := g.2
    simp [GroupElement.mk.sizeOf_spec]
    calc sizeOf g.1 < sizeOf gs := List.sizeOf_lt_of_mem this
      _ < 1 + sizeOf transform + sizeOf paths + sizeOf circles + sizeOf rects + sizeOf gs := by
          omega

/-- Registry construction of the richer variant (part_002 lines 530–537):
only the first `<defs>` block's `<filter>` children are registered, keyed by
id. -/
def buildFilters (doc : SvgDoc) : FilterRegistry :=
  match doc.defs.head? with
  | none => []
  | some d => d.filter.foldl (fun m f => mapSet m f.id f) []

/-- The two accumulators of the richer variant's `convertSvgToAndroidVector`
(part_002 lines 539–576): every top-level path, circle, rect and line is run
through `processElement` and pushed into the local `groupedElements` array
(in that order; each push is one string holding the element's fragments,
flattened here), and every `<g>` through `handleGroup` into `bodyXml`.  Only
`bodyXml` is appended to `vectorXml` before `</vector>` (lines 572–573):
`groupedElements` is built and then never serialized. -/
structure AssembleResult where
  groupedElements : List Emitted2
  body : List GEmitted2

/-- The accumulators as completed just before the write (line 576). -/
def assembleResult (doc : SvgDoc) : AssembleResult :=
  let filters := buildFilters doc
  { groupedElements :=
      (doc.paths.map (fun p => processShape filters (.path p))).join ++
      (doc.circles.map (fun c => processShape filters (.circle c))).join ++
      (doc.rects.map (fun r => processShape filters (.rect r))).join ++
      (doc.lines.map (fun l => processShape filters (.line l))).join
    body := (doc.gs.map (handleGroup filters)).join }

end V2

/-!  ## Claim theorems -/

/-- The control and end points of a `C` command. -/
def cSegArgs : PathCmd → Option ((JSNum × JSNum) × (JSNum × JSNum) × (JSNum × JSNum))
  | .C x1 y1 x2 y2 x y => some ((x1, y1), (x2, y2), (x, y))
  | _ => none

/-- C1: for every circle element with numeric `cx`, `cy`, `r`, the
circle-to-path conversion emits `M cx (cy - r)` first, exactly four cubic
`C` segments whose control points are offset by `0.552285 · r`, traversing
top → right → bottom → left → back to top, terminated by `Z`; in particular
for cx = 50, cy = 50, r = 40 the first command is `M 50 10`. -/
theorem claim_C1_circle_to_path :
    (∀ cx cy r : ℚ,
      (circlePathData (some cx) (some cy) (some r)).head? =
        some (.M (some cx) (some (cy - r))) ∧
      (circlePathData (some cx) (some cy) (some r)).getLast? = some .Z ∧
      (circlePathData (some cx) (some cy) (some r)).length = 6 ∧
      (circlePathData (some cx) (some cy) (some r)).filterMap cSegArgs =
        [ ((some (cx + r * kCircle), some (cy - r)),
            (some (cx + r), some (cy - r * kCircle)), (some (cx + r), some cy))
        , ((some (cx + r), some (cy + r * kCircle)),
            (some (cx + r * kCircle), some (cy + r)), (some cx, some (cy + r)))
        , ((some (cx - r * kCircle), some (cy + r)),
            (some (cx - r), some (cy + r * kCircle)), (some (cx - r), some cy))
        , ((some (cx - r), some (cy - r * kCircle)),
            (some (cx - r * kCircle), some (cy - r)), (some cx, some (cy - r))) ]) ∧
    (V1.convertCircle ⟨"50", "50", "40", none, none, none, none⟩).pathData =
      .cmds (circlePathData (some 50) (some 50) (some 40)) ∧
    (circlePathData (some 50) (some 50) (some 40)).head? = some (.M (some 50) (some 10)) := by
  refine ⟨fun cx cy r => ⟨?_, ?_, ?_, ?_⟩, ?_, ?_⟩
  · simp [circlePathData]
  · simp [circlePathData]
  · simp [circlePathData]
  · simp [circlePathData, cSegArgs, List.filterMap]
  · have h50 : parseFloatQ "50" = some 50 := by
      simp +decide [parseFloatQ, parseDecimalCore, natFromDigits] <;> norm_num
    have h40 : parseFloatQ "40" = some 40 := by
      simp +decide [parseFloatQ, parseDecimalCore, natFromDigits] <;> norm_num
    simp [V1.convertCircle, h50, h40]
  · simp [circlePathData]
    norm_num

/-- C4 (code bug): `convertColorWithOpacity` computes the rounded alpha byte
and prepends it for hex colors (`("#ff0000", "0.5") ↦ "#80ff0000"`), but its
rgb branch is dead — the regex `/rgb$(\d+),\s*(\d+),\s*(\d+)$/` (with `$`
end-of-input anchors in place of the intended escaped parentheses) matches no
string, so every `rgb(r,g,b)` input is returned unchanged instead of being
hex-encoded as the documentation and the claim state. -/
theorem claim_C4_rgb_branch_dead :
    convertColorWithOpacity "#ff0000" "0.5" = "#80ff0000" ∧
    convertColorWithOpacity "rgb(255,0,0)" "0.5" = "rgb(255,0,0)" ∧
    jsRgbMatch "rgb(255,0,0)".data = none := by
  refine ⟨?_, ?_, jsRgbMatch_eq_none _⟩
  · have hp : parseFloatQ "0.5" = some (1 / 2) := by
      simp +decide [parseFloatQ, parseDecimalCore, natFromDigits] <;> norm_num
    rw [convertColorWithOpacity, hp]
    simp only [convertColorWithOpacityQ]
    rw [if_pos (by decide), alphaHex_eval (1 / 2) 128 (by norm_num [round_eq])]
    decide
  · rw [convertColorWithOpacity]
    simp only [convertColorWithOpacityQ]
    rw [if_neg (by decide), jsRgbMatch_eq_none]

theorem findRotate_eq_none_of_not_contains {l : List Char}
    (h : containsRotate l = false) : findRotate l = none := by
  induction l with
  | nil => rfl
  | cons c rest ih =>
    rw [containsRotate] at h
    simp only [Bool.or_eq_false_iff] at h
    rw [findRotate, if_neg (by simp [h.1]), ih h.2]

/-- C6: the transform parser recognizes only `rotate(angle[, cx, cy])`:
a transform without the literal `rotate(` (scale, translate, matrix, skew)
yields rotation 0 and no pivot; pivotX and pivotY are always set together; a
full pivot pair is parsed, and a partial pivot (only one pivot number) makes
the rotate pattern fail, leaving the pivot absent. -/
theorem claim_C6_rotate_only :
    (∀ t : String, containsRotate t.data = false →
      processTransform t = ⟨some 0, none, none⟩) ∧
    (∀ t : String,
      (processTransform t).pivotX.isSome = (processTransform t).pivotY.isSome) ∧
    processTransform "scale(2, 3)" = ⟨some 0, none, none⟩ ∧
    processTransform "translate(10, 20)" = ⟨some 0, none, none⟩ ∧
    processTransform "matrix(1, 0, 0, 1, 0, 0)" = ⟨some 0, none, none⟩ ∧
    processTransform "skewX(30)" = ⟨some 0, none, none⟩ ∧
    processTransform "rotate(45, 10, 20)" = ⟨some 45, some (some 10), some (some 20)⟩ ∧
    processTransform "rotate(45, 10)" = ⟨some 0, none, none⟩ := by
  refine ⟨?_, ?_, ?_, ?_, ?_, ?_, ?_, ?_⟩
  · intro t h
    rw [processTransform]
    split
    · rfl
    · rw [findRotate_eq_none_of_not_contains h]
  · intro t
    rw [processTransform]
    split
    · rfl
    · cases hf : findRotate t.data with
      | none => simp
      | some v => cases v with
        | mk a piv => simp [Option.isSome_map]
  · simp +decide [processTransform, findRotate, matchRotateArgs]
  · simp +decide [processTransform, findRotate, matchRotateArgs]
  · simp +decide [processTransform, findRotate, matchRotateArgs]
  · simp +decide [processTransform, findRotate, matchRotateArgs]
  · simp +decide [processTransform, findRotate, matchRotateArgs, parseFloatQ,
      parseDecimalCore, natFromDigits] <;> norm_num
  · simp +decide [processTransform, findRotate, matchRotateArgs]

/-- Witness for C6: a `scale`-only transform yields rotation 0 and no pivot. -/
theorem claim_C6_witness : processTransform "scale(2)" = ⟨some 0, none, none⟩ :=
  claim_C6_rotate_only.1 "scale(2)" (by decide)

/-- C3: the color resolver of the richer variant maps the five named colors
to fixed fully-opaque ARGB8 constants, prefixes a 6-digit hex token with the
full-opacity alpha byte `FF`, and passes an 8-digit hex token through
unchanged. -/
theorem claim_C3_color_resolver :
    V2.convertColor (some "white") = "#FFFFFFFF" ∧
    V2.convertColor (some "black") = "#FF000000" ∧
    V2.convertColor (some "red") = "#FFFF0000" ∧
    V2.convertColor (some "blue") = "#FF0000FF" ∧
    V2.convertColor (some "green") = "#FF00FF00" ∧
    (∀ s : String, s.length = 6 → V2.convertColor (some ("#" ++ s)) = "#FF" ++ s) ∧
    (∀ s : String, s.length = 8 → V2.convertColor (some ("#" ++ s)) = "#" ++ s) := by
  refine ⟨by decide, by decide, by decide, by decide, by decide, ?_, ?_⟩
  · intro s hlen
    by_cases hs : s = "373737"
    · subst hs; decide
    · have hdata : ("#" ++ s).data = '#' :: s.data := by
        rw [String.data_append]; rfl
      have hlen7 : ("#" ++ s).length = 7 := by
        rw [String.length_append, hlen]; rfl
      have hlenN : ∀ lit : String, lit.length ≠ 7 → ("#" ++ s) ≠ lit := by
        intro lit hl heq
        exact hl (heq ▸ hlen7)
      have h373737 : ("#" ++ s) ≠ "#373737" := by
        intro heq
        apply hs
        have h2 : s.data = "373737".data := by
          have h3 := congrArg String.data heq
          rw [hdata] at h3
          simpa using h3
        exact String.ext h2
      have hslice : slice1 ("#" ++ s) = s := by
        rw [slice1, hdata]; rfl
      have hstart : jsStartsWith ("#" ++ s) "#" = true := by
        rw [jsStartsWith]
        exact List.isPrefixOf_iff_prefix.mpr ⟨s.data, (String.data_append "#" s).symm⟩
      simp only [V2.convertColor]
      rw [if_neg (by rw [hdata]; exact fun hcc => Bool.noConfusion hcc),
          if_neg (hlenN "none" (by decide)),
          if_neg h373737,
          if_neg (hlenN "white" (by decide)),
          if_neg (hlenN "white" (by decide)),
          if_neg (hlenN "black" (by decide)),
          if_neg (hlenN "red" (by decide)),
          if_neg (hlenN "blue" (by decide)),
          if_neg (hlenN "green" (by decide)),
          if_pos hstart, if_pos hlen7, hslice]
  · intro s hlen
    have hdata : ("#" ++ s).data = '#' :: s.data := by
      rw [String.data_append]; rfl
    have hlen9 : ("#" ++ s).length = 9 := by
      rw [String.length_append, hlen]; rfl
    have hlenN : ∀ lit : String, lit.length ≠ 9 → ("#" ++ s) ≠ lit := by
      intro lit hl heq
      exact hl (heq ▸ hlen9)
    have hstart : jsStartsWith ("#" ++ s) "#" = true := by
      rw [jsStartsWith]
      exact List.isPrefixOf_iff_prefix.mpr ⟨s.data, (String.data_append "#" s).symm⟩
    simp only [V2.convertColor]
    rw [if_neg (by rw [hdata]; exact fun hcc => Bool.noConfusion hcc),
        if_neg (hlenN "none" (by decide)),
        if_neg (hlenN "#373737" (by decide)),
        if_neg (hlenN "white" (by decide)),
        if_neg (hlenN "white" (by decide)),
        if_neg (hlenN "black" (by decide)),
        if_neg (hlenN "red" (by decide)),
        if_neg (hlenN "blue" (by decide)),
        if_neg (hlenN "green" (by decide)),
        if_pos hstart, if_neg (by rw [hlen9]; decide)]

/-- Witness for C3: a concrete 6-digit hex token gains the `FF` prefix and a
concrete 8-digit token passes through. -/
theorem claim_C3_witness :
    V2.convertColor (some ("#" ++ "abcdef")) = "#FF" ++ "abcdef" ∧
    V2.convertColor (some ("#" ++ "80ff0000")) = "#" ++ "80ff0000" :=
  ⟨claim_C3_color_resolver.2.2.2.2.2.1 "abcdef" (by decide),
    claim_C3_color_resolver.2.2.2.2.2.2 "80ff0000" (by decide)⟩

/-- C2: for every rect element with numeric attributes, the emitted path data
is `M x y h width v height h -width Z` when both radii are zero, and the
8-segment rounded rectangle (quadratic corner curves whose control points are
the rectangle's corners, clockwise from `(x+rx, y)`) otherwise; the computed
`ry` falls back to the `rx` attribute and both radii default to `0`, as do
`x` and `y`. -/
theorem claim_C2_rect_to_path :
    (∀ (re : RectElement) (x y w h rx ry : ℚ),
      parseFloatQ (jsOr re.x "0") = some x →
      parseFloatQ (jsOr re.y "0") = some y →
      parseFloatQ re.width = some w →
      parseFloatQ re.height = some h →
      parseFloatQ (jsOr re.rx "0") = some rx →
      parseFloatQ (jsOrStr (jsOr re.ry (jsOr re.rx "0")) "0") = some ry →
      (V1.convertRect re).2.pathData = .cmds (
        if rx = 0 ∧ ry = 0 then
          [ .M (some x) (some y), .hRel (some w), .vRel (some h),
            .hRel (some (-w)), .Z ]
        else
          [ .M (some (x + rx)) (some y)
          , .L (some (x + w - rx)) (some y)
          , .Q (some (x + w)) (some y) (some (x + w)) (some (y + ry))
          , .L (some (x + w)) (some (y + h - ry))
          , .Q (some (x + w)) (some (y + h)) (some (x + w - rx)) (some (y + h))
          , .L (some (x + rx)) (some (y + h))
          , .Q (some x) (some (y + h)) (some x) (some (y + h - ry))
          , .L (some x) (some (y + ry))
          , .Q (some x) (some y) (some (x + rx)) (some y)
          , .Z ])) ∧
    (∀ rxA : Option String,
      jsOrStr (jsOr (none : Option String) (jsOr rxA "0")) "0" = jsOr rxA "0") ∧
    jsOr (none : Option String) "0" = "0" ∧
    parseFloatQ "0" = some 0 := by
  refine ⟨?_, ?_, rfl, ?_⟩
  · intro re x y w h rx ry hx hy hw hh hrx hry
    simp only [V1.convertRect, hx, hy, hw, hh, hrx, hry]
    by_cases hc : rx = 0 ∧ ry = 0
    · rw [rectPathData, if_pos (by simp [hc.1, hc.2]), if_pos hc]
      simp
    · rw [rectPathData, if_neg ?cond, if_neg hc]
      · simp
      case cond =>
        simp only [Bool.and_eq_true, decide_eq_true_eq, Option.some.injEq]
        exact fun hcc => hc ⟨hcc.1, hcc.2⟩
  · intro rxA
    have hnonempty : (jsOr rxA "0").data.isEmpty = false := by
      cases rxA with
      | none => rfl
      | some v =>
        simp only [jsOr]
        split
        · rfl
        · rename_i hv
          simpa using hv
    show jsOrStr (jsOr rxA "0") "0" = jsOr rxA "0"
    rw [jsOrStr, if_neg (by rw [hnonempty]; exact fun hcc => Bool.noConfusion hcc)]
  · simp +decide [parseFloatQ, parseDecimalCore, natFromDigits] <;> norm_num

/-- Witness for C2: the x=10, y=10, 80×80 rect with no radii yields exactly
`M 10 10 h 80 v 80 h -80 Z`. -/
theorem claim_C2_witness :
    (V1.convertRect
        ⟨some "10", some "10", "80", "80", none, none, none, none, none, none, none⟩).2.pathData =
      .cmds [ .M (some 10) (some 10), .hRel (some 80), .vRel (some 80),
        .hRel (some (-80)), .Z ] := by
  have h10 : parseFloatQ (jsOr (some "10") "0") = some 10 := by
    simp +decide [jsOr, parseFloatQ, parseDecimalCore, natFromDigits] <;> norm_num
  have h80 : parseFloatQ "80" = some 80 := by
    simp +decide [parseFloatQ, parseDecimalCore, natFromDigits] <;> norm_num
  have h0 : parseFloatQ (jsOr (none : Option String) "0") = some 0 := by
    simp +decide [jsOr, parseFloatQ, parseDecimalCore, natFromDigits] <;> norm_num
  have h0' : parseFloatQ
      (jsOrStr (jsOr (none : Option String) (jsOr (none : Option String) "0")) "0") = some 0 := by
    simp +decide [jsOr, jsOrStr, parseFloatQ, parseDecimalCore, natFromDigits] <;> norm_num
  have hmain := claim_C2_rect_to_path.1
    ⟨some "10", some "10", "80", "80", none, none, none, none, none, none, none⟩
    10 10 80 80 0 0 h10 h10 h80 h80 h0 h0'
  rw [hmain, if_pos ⟨rfl, rfl⟩]

/-- C9: a `url(#id)` fill whose id is missing from the gradient registry
renders the flat branch — no gradient child, default flat fill color
`#000000` — and the conversion is total: the assembled body contains one
fragment per input element regardless. -/
theorem claim_C9_unresolved_gradient_fill :
    (∀ (gm : V1.GradientRegistry) (p : PathElement) (f : String),
      p.fill = some f →
      jsStartsWith f "url(#" = true →
      List.lookup (sliceUrl f) gm = none →
      (V1.convertPath gm p).2 = V1.flatPathShape p ∧
      (V1.convertPath gm p).2.gradientChild = none ∧
      (V1.convertPath gm p).2.fillColor = some "#000000") ∧
    (∀ doc : SvgDoc, (V1.assembleBody doc).length =
      (if doc.animates.isEmpty && doc.animateTransforms.isEmpty then 0 else 1) +
      (doc.paths.length + doc.rects.length + doc.circles.length +
        doc.lines.length + doc.gs.length)) := by
  constructor
  · intro gm p f hf hpre hlook
    obtain ⟨t, ht⟩ := List.isPrefixOf_iff_prefix.mp hpre
    have hfd : f.data = 'u' :: 'r' :: 'l' :: '(' :: '#' :: t := by rw [← ht]; rfl
    have hne : ∀ lit : String, lit.data.head? ≠ some 'u' → f ≠ lit := by
      intro lit hh heq
      apply hh
      rw [← heq, hfd]
      rfl
    have hcc : V1.convertColor (some f) = "#000000" := by
      simp only [V1.convertColor]
      rw [if_neg (by rw [hfd]; exact fun hcc => Bool.noConfusion hcc),
          if_neg (hne "none" (by decide)),
          if_neg (hne "white" (by decide)),
          if_neg (hne "black" (by decide)),
          if_neg (hne "red" (by decide)),
          if_neg (hne "blue" (by decide)),
          if_neg (hne "green" (by decide)),
          if_neg (by
            rw [jsStartsWith, jsStartsWith, hfd]
            exact fun hcc => Bool.noConfusion hcc)]
    have hbranch : (V1.convertPath gm p).2 = V1.flatPathShape p := by
      simp only [V1.convertPath, hf]
      rw [if_pos (by rw [hpre, hfd]; rfl), hlook]
    refine ⟨hbranch, by rw [hbranch]; rfl, ?_⟩
    rw [hbranch, V1.flatPathShape, hf, hcc]
  · intro doc
    rw [V1.assembleBody]
    by_cases hc : (doc.animates.isEmpty && doc.animateTransforms.isEmpty) = true
    · rw [if_pos hc, if_pos hc]
      simp [List.length_append]
      omega
    · rw [if_neg hc, if_neg hc]
      simp [List.length_append]
      omega

/-- Witness for C9: an unresolvable `url(#missing)` fill on a concrete path
renders flat with the default fill color. -/
theorem claim_C9_witness :
    (V1.convertPath [] ⟨"M0 0", some "url(#missing)", none, none, none, none⟩).2 =
      V1.flatPathShape ⟨"M0 0", some "url(#missing)", none, none, none, none⟩ ∧
    (V1.convertPath [] ⟨"M0 0", some "url(#missing)", none, none, none, none⟩).2.gradientChild
      = none ∧
    (V1.convertPath [] ⟨"M0 0", some "url(#missing)", none, none, none, none⟩).2.fillColor
      = some "#000000" :=
  claim_C9_unresolved_gradient_fill.1 []
    ⟨"M0 0", some "url(#missing)", none, none, none, none⟩ "url(#missing)"
    rfl (by decide) rfl

/-- Non-degeneracy for the shadow claims: a filtered `path` element must
carry non-empty path data without a literal quote (an empty `d` makes
`applyDropShadow` take its warning branch which emits no shadow, and a quote
truncates the regex capture of the primary XML).  Other shape kinds are
unconstrained. -/
def V2.NonDegenerate : V2.Shape2 → Prop
  | .path p => p.d.data ≠ [] ∧ '"' ∉ p.d.data
  | _ => True

theorem processShape_eq_applyDropShadow (filters : V2.FilterRegistry) (s : V2.Shape2)
    (fa : String) (hattr : s.filterAttr = some fa) (hne : fa.data.isEmpty = false) :
    V2.processShape filters s =
      V2.applyDropShadow filters (V2.convertShape filters s) (sliceUrl fa) s := by
  simp only [V2.processShape, hattr]
  rw [if_neg (by rw [hne]; exact fun h => Bool.noConfusion h)]

/-- With a registered filter and a non-degenerate shape, `processElement`
emits exactly the shadow copy followed by the primary conversion; the shadow
carries the filter's shadow color, its translate offsets and the shape's own
geometry. -/
theorem processShape_shadow_struct (filters : V2.FilterRegistry) (s : V2.Shape2)
    (fa : String) (filt : FilterElement)
    (hattr : s.filterAttr = some fa) (hne : fa.data.isEmpty = false)
    (hlook : List.lookup (sliceUrl fa) filters = some filt)
    (hnd : V2.NonDegenerate s) :
    ∃ sh : V2.Emitted2,
      V2.processShape filters s = [sh, V2.convertShape filters s] ∧
      sh.shadowColorOf = some (V2.convertFilter filt).shadowColor ∧
      sh.shadowTranslateOf =
        some ((V2.convertFilter filt).dx, (V2.convertFilter filt).dy) ∧
      sh.geomSigOf = some s.geomSig := by
  rw [processShape_eq_applyDropShadow filters s fa hattr hne]
  cases s with
  | circle c =>
    refine ⟨.shadowCircle c.cx c.cy c.r (V2.convertFilter filt).shadowColor
      ((V2.convertFilter filt).dx, (V2.convertFilter filt).dy), ?_, rfl, rfl, rfl⟩
    simp only [V2.applyDropShadow, hlook]
  | rect r =>
    refine ⟨.shadowRect r.x r.y r.width r.height (V2.convertFilter filt).shadowColor
      ((V2.convertFilter filt).dx, (V2.convertFilter filt).dy), ?_, rfl, rfl, rfl⟩
    simp only [V2.applyDropShadow, hlook]
  | line l =>
    refine ⟨.shadowLine l.x1 l.y1 l.x2 l.y2 (V2.convertFilter filt).shadowColor
      (jsOr l.strokeWidth "1")
      ((V2.convertFilter filt).dx, (V2.convertFilter filt).dy), ?_, rfl, rfl, rfl⟩
    simp only [V2.applyDropShadow, hlook]
  | path p =>
    obtain ⟨hd, hq⟩ := hnd
    have hie : p.d.data.isEmpty = false := by
      cases hdl : p.d.data with
      | nil => exact absurd hdl hd
      | cons a t => rfl
    have hall : ∀ a ∈ p.d.data, (fun c => decide ¬(c = '"')) a = true := by
      intro a ha
      simp only [decide_eq_true_eq]
      exact fun h => hq (h ▸ ha)
    have hcap : p.d.data.takeWhile (fun c => decide ¬(c = '"')) = p.d.data :=
      List.takeWhile_eq_self_iff.mpr hall
    refine ⟨.shadowPath p.d (V2.convertFilter filt).shadowColor
      ((V2.convertFilter filt).dx, (V2.convertFilter filt).dy), ?_, rfl, rfl, rfl⟩
    simp only [V2.applyDropShadow, hlook, hcap, hie, Bool.false_eq_true, if_false]

/-- A drop-shadow definition with every sub-attribute absent uses the
per-attribute defaults: flood color `#000000` at opacity 0.2 (alpha byte
`33`), dx 0, dy 0 + stdDeviation 2. -/
theorem convertFilter_defaults (filt : FilterElement)
    (hhead : filt.feDropShadow.head? = some ⟨none, none, none, none, none⟩) :
    V2.convertFilter filt = ⟨"#33000000", some 0, some 2⟩ := by
  have h0 : parseFloatQ "0" = some 0 := by
    simp +decide [parseFloatQ, parseDecimalCore, natFromDigits] <;> norm_num
  have h2 : parseFloatQ "2" = some 2 := by
    simp +decide [parseFloatQ, parseDecimalCore, natFromDigits] <;> norm_num
  have h02 : parseFloatQ "0.2" = some (1 / 5) := by
    simp +decide [parseFloatQ, parseDecimalCore, natFromDigits] <;> norm_num
  have hcol : convertColorWithOpacityQ "#000000" (some (1 / 5)) = "#33000000" := by
    simp only [convertColorWithOpacityQ]
    rw [if_pos (by decide), alphaHex_eval (1 / 5) 51 (by norm_num [round_eq])]
    decide
  simp only [V2.convertFilter, hhead, jsOr, h0, h2, h02, hcol, jadd_some]
  norm_num

/-- A filter without any `feDropShadow` child yields the fixed fallback
shadow parameters. -/
theorem convertFilter_fallback (filt : FilterElement)
    (hhead : filt.feDropShadow.head? = none) :
    V2.convertFilter filt = ⟨"#33373737", some 0, some 4⟩ := by
  simp only [V2.convertFilter, hhead]

/-- Compositor contract of `processElement`: an element whose `filter`
reference resolves to a registered filter with a drop-shadow definition is
returned as exactly two shape fragments — the shadow copy first, then the
primary — sharing the element's geometry; the shadow uses the
opacity-blended flood color and translate offsets `(dx, dy + stdDeviation)`,
and absent sub-attributes default to dx=0, dy=0, stdDeviation=2, flood-color
`#000000`, flood-opacity 0.2.  (The document assembler discards this return
value for top-level elements — see `claim_C5_shadow_discarded`.) -/
theorem dropShadow_pair_props :
    (∀ (filters : V2.FilterRegistry) (s : V2.Shape2) (fa : String)
        (filt : FilterElement) (sh : DropShadowEl),
      s.filterAttr = some fa →
      fa.data.isEmpty = false →
      List.lookup (sliceUrl fa) filters = some filt →
      filt.feDropShadow.head? = some sh →
      V2.NonDegenerate s →
      (V2.processShape filters s).length = 2 ∧
      (V2.processShape filters s).drop 1 = [V2.convertShape filters s] ∧
      ((V2.processShape filters s).head?.bind V2.Emitted2.shadowColorOf) =
        some (V2.convertFilter filt).shadowColor ∧
      ((V2.processShape filters s).head?.bind V2.Emitted2.shadowTranslateOf) =
        some ((V2.convertFilter filt).dx, (V2.convertFilter filt).dy) ∧
      ((V2.processShape filters s).head?.bind V2.Emitted2.geomSigOf) =
        some s.geomSig) ∧
    (∀ (filt : FilterElement) (sh : DropShadowEl) (b c : ℚ),
      filt.feDropShadow.head? = some sh →
      parseFloatQ (jsOr sh.dy "0") = some b →
      parseFloatQ (jsOr sh.stdDeviation "2") = some c →
      (V2.convertFilter filt).dy = some (b + c) ∧
      (V2.convertFilter filt).dx = parseFloatQ (jsOr sh.dx "0") ∧
      (V2.convertFilter filt).shadowColor =
        convertColorWithOpacityQ (jsOr sh.floodColor "#000000")
          (parseFloatQ (jsOr sh.floodOpacity "0.2"))) ∧
    (∀ filt : FilterElement,
      filt.feDropShadow.head? = some ⟨none, none, none, none, none⟩ →
      V2.convertFilter filt = ⟨"#33000000", some 0, some 2⟩) := by
  refine ⟨?_, ?_, convertFilter_defaults⟩
  · intro filters s fa filt sh hattr hne hlook hhead hnd
    obtain ⟨shE, hps, h1, h2, h3⟩ :=
      processShape_shadow_struct filters s fa filt hattr hne hlook hnd
    rw [hps]
    exact ⟨rfl, rfl, by simpa using h1, by simpa using h2, by simpa using h3⟩
  · intro filt sh b c hhead hdy hstd
    simp only [V2.convertFilter, hhead]
    exact ⟨by rw [hdy, hstd, jadd_some], trivial, trivial⟩

/-- The circle element of the C5 failing input: a top-level `<circle>`
carrying `filter="url(#f1)"`. -/
def exCircle5 : CircleElement :=
  ⟨"50", "50", "40", none, none, none, some "url(#f1)"⟩

/-- The registered filter of the C5 failing input: id `f1` with one
`feDropShadow` child whose sub-attributes are all absent. -/
def exFilter5 : FilterElement :=
  ⟨"f1", [⟨none, none, none, none, none⟩]⟩

/-- The C5 failing input: a parsed document whose `<defs>` registers `f1`
and whose only top-level shape is the filtered circle. -/
def exDoc5 : SvgDoc :=
  { width := none, height := none, viewBox := none, defs := [⟨[], [exFilter5]⟩]
    animates := [], animateTransforms := [], paths := [], rects := []
    circles := [exCircle5], lines := [], gs := [] }

/-- C5 (code bug): for the filtered circle of `exDoc5`, `processElement`
computes exactly the pair the claim describes — the shadow copy first
(flood color `#000000` at opacity 0.2 giving `#33000000`, translate
`(0, 0 + 2)`, the circle's own geometry), then the primary conversion — and
the assembler pushes that pair into its `groupedElements` accumulator; but
`groupedElements` is never appended to the output (only `bodyXml`, built
from `<g>` elements, is), so the emitted document body contains no shape
element at all for the filtered circle, contradicting the claim's
"the output contains exactly two shape elements". -/
theorem claim_C5_shadow_discarded :
    (V2.processShape (V2.buildFilters exDoc5) (.circle exCircle5)).length = 2 ∧
    ((V2.processShape (V2.buildFilters exDoc5) (.circle exCircle5)).head?.bind
      V2.Emitted2.shadowColorOf) = some "#33000000" ∧
    ((V2.processShape (V2.buildFilters exDoc5) (.circle exCircle5)).head?.bind
      V2.Emitted2.shadowTranslateOf) = some (some 0, some 2) ∧
    ((V2.processShape (V2.buildFilters exDoc5) (.circle exCircle5)).head?.bind
      V2.Emitted2.geomSigOf) =
      some (V2.Shape2.geomSig (.circle exCircle5)) ∧
    (V2.processShape (V2.buildFilters exDoc5) (.circle exCircle5)).drop 1 =
      [V2.convertShape (V2.buildFilters exDoc5) (.circle exCircle5)] ∧
    (V2.assembleResult exDoc5).groupedElements =
      V2.processShape (V2.buildFilters exDoc5) (.circle exCircle5) ∧
    (V2.assembleResult exDoc5).body = [] := by
  obtain ⟨shE, hps, h1, h2, h3⟩ :=
    processShape_shadow_struct (V2.buildFilters exDoc5) (.circle exCircle5)
      "url(#f1)" exFilter5 rfl rfl (by decide) trivial
  rw [convertFilter_defaults exFilter5 rfl] at h1 h2
  refine ⟨?_, ?_, ?_, ?_, ?_, ?_, ?_⟩
  · rw [hps]
    rfl
  · rw [hps]
    simpa using h1
  · rw [hps]
    simpa using h2
  · rw [hps]
    simpa using h3
  · rw [hps]
    rfl
  · simp only [V2.assembleResult, exDoc5, List.map_nil, List.join_nil,
      List.map_cons, List.join_cons, List.nil_append, List.append_nil,
      List.join, List.map]
  · rfl


/-- C10: a registered filter without any `feDropShadow` child still drives a
shadow copy, using the fixed fallback parameters `#33373737`, dx 0, dy 4 —
not the per-attribute defaults (which would give `#33000000` and dy 2). -/
theorem claim_C10_fallback_shadow :
    (∀ filt : FilterElement, filt.feDropShadow.head? = none →
      V2.convertFilter filt = ⟨"#33373737", some 0, some 4⟩) ∧
    (∀ (filters : V2.FilterRegistry) (s : V2.Shape2) (fa : String)
        (filt : FilterElement),
      s.filterAttr = some fa →
      fa.data.isEmpty = false →
      List.lookup (sliceUrl fa) filters = some filt →
      filt.feDropShadow.head? = none →
      V2.NonDegenerate s →
      (V2.processShape filters s).length = 2 ∧
      ((V2.processShape filters s).head?.bind V2.Emitted2.shadowColorOf) =
        some "#33373737" ∧
      ((V2.processShape filters s).head?.bind V2.Emitted2.shadowTranslateOf) =
        some (some 0, some 4) ∧
      (V2.processShape filters s).drop 1 = [V2.convertShape filters s]) ∧
    V2.convertFilter ⟨"id0", []⟩ ≠
      V2.convertFilter ⟨"id0", [⟨none, none, none, none, none⟩]⟩ := by
  refine ⟨convertFilter_fallback, ?_, ?_⟩
  · intro filters s fa filt hattr hne hlook hhead hnd
    obtain ⟨shE, hps, h1, h2, h3⟩ :=
      processShape_shadow_struct filters s fa filt hattr hne hlook hnd
    rw [convertFilter_fallback filt hhead] at h1 h2
    rw [hps]
    exact ⟨rfl, by simpa using h1, by simpa using h2, rfl⟩
  · rw [convertFilter_fallback ⟨"id0", []⟩ rfl,
      convertFilter_defaults ⟨"id0", [⟨none, none, none, none, none⟩]⟩ rfl]
    intro h
    have := congrArg V2.ShadowEffect.shadowColor h
    exact absurd this (by decide)

/-- Witness for C10: a filter registered with no `feDropShadow` child still
produces a shadow copy for a concrete circle, with the fallback color and
offsets. -/
theorem claim_C10_witness :
    (V2.processShape [("f2", ⟨"f2", []⟩)]
        (.circle ⟨"10", "10", "5", none, none, none, some "url(#f2)"⟩)).length = 2 ∧
    ((V2.processShape [("f2", ⟨"f2", []⟩)]
        (.circle ⟨"10", "10", "5", none, none, none, some "url(#f2)"⟩)).head?.bind
      V2.Emitted2.shadowColorOf) = some "#33373737" ∧
    ((V2.processShape [("f2", ⟨"f2", []⟩)]
        (.circle ⟨"10", "10", "5", none, none, none, some "url(#f2)"⟩)).head?.bind
      V2.Emitted2.shadowTranslateOf) = some (some 0, some 4) ∧
    (V2.processShape [("f2", ⟨"f2", []⟩)]
        (.circle ⟨"10", "10", "5", none, none, none, some "url(#f2)"⟩)).drop 1 =
      [V2.convertShape [("f2", ⟨"f2", []⟩)]
        (.circle ⟨"10", "10", "5", none, none, none, some "url(#f2)"⟩)] :=
  claim_C10_fallback_shadow.2.1 [("f2", ⟨"f2", []⟩)]
    (.circle ⟨"10", "10", "5", none, none, none, some "url(#f2)"⟩)
    "url(#f2)" ⟨"f2", []⟩ rfl rfl (by decide) rfl trivial

/-- The top-level emission order asserted by claim C7 — all paths, then all
circles, then all rects, then all lines, then all groups — modelled from the
claim's words for comparison with the source's `assembleBody`. -/
def claimOrderBody (doc : SvgDoc) : List V1.Emitted :=
  let gm := V1.buildGradientRegistry doc
  (if doc.animates.isEmpty && doc.animateTransforms.isEmpty then []
    else
      [V1.Emitted.animG
        (doc.animates.map V1.convertAnimation ++
          doc.animateTransforms.map V1.convertAnimation)]) ++
  doc.paths.map (fun p => V1.Emitted.pathE (V1.convertPath gm p).1 (V1.convertPath gm p).2) ++
  doc.circles.map (fun c => V1.Emitted.circleE (V1.convertCircle c)) ++
  doc.rects.map (fun r => V1.Emitted.rectE (V1.convertRect r).1 (V1.convertRect r).2) ++
  doc.lines.map (fun l => V1.Emitted.lineE (V1.convertLine l)) ++
  doc.gs.map (V1.handleGroup gm)

/-- A parsed document holding one `<rect>` and one `<circle>`. -/
def exDoc7 : SvgDoc :=
  { width := none, height := none, viewBox := none, defs := [], animates := []
    animateTransforms := [], paths := []
    rects := [⟨none, none, "80", "80", none, none, none, none, none, none, none⟩]
    circles := [⟨"50", "50", "40", none, none, none, none⟩], lines := [], gs := [] }

/-- Counterexample to C7 as stated: on a document with one circle and one
rect, the source emits the rect fragment before the circle fragment, not the
claimed circle-before-rect order. -/
theorem claim_C7_counterexample : V1.assembleBody exDoc7 ≠ claimOrderBody exDoc7 := by
  intro h
  have hk := congrArg (List.map V1.kindOf) h
  have h1 : List.map V1.kindOf (V1.assembleBody exDoc7) =
      [V1.Kind.rect, V1.Kind.circle] := rfl
  have h2 : List.map V1.kindOf (claimOrderBody exDoc7) =
      [V1.Kind.circle, V1.Kind.rect] := rfl
  rw [h1, h2] at hk
  exact absurd hk (by decide)

theorem sorted_const_rank (k : ℕ) (xs : List ℕ) (hx : ∀ a ∈ xs, a = k) :
    List.Sorted (· ≤ ·) xs := by
  induction xs with
  | nil => exact List.sorted_nil
  | cons x t ih =>
    rw [List.sorted_cons]
    refine ⟨fun b hb => ?_, ih (fun a ha => hx a (List.mem_cons_of_mem _ ha))⟩
    rw [hx x (List.mem_cons_self _ _), hx b (List.mem_cons_of_mem _ hb)]

theorem sorted_block_append (k : ℕ) (xs ys : List ℕ)
    (hx : ∀ a ∈ xs, a = k) (hy : ∀ b ∈ ys, k ≤ b)
    (hys : List.Sorted (· ≤ ·) ys) :
    List.Sorted (· ≤ ·) (xs ++ ys) ∧ ∀ b ∈ xs ++ ys, k ≤ b := by
  constructor
  · exact List.pairwise_append.mpr
      ⟨sorted_const_rank k xs hx, hys, fun a ha b hb => (hx a ha) ▸ hy b hb⟩
  · intro b hb
    rcases List.mem_append.mp hb with hmem | hmem
    · rw [hx b hmem]
    · exact hy b hmem

theorem handleGroup_kind (gm : V1.GradientRegistry) (g : GroupElement) :
    V1.kindOf (V1.handleGroup gm g) = V1.Kind.group := by
  cases g with
  | mk tr ps cs rs gs =>
    rw [V1.handleGroup.eq_def]
    rfl

/-- C7 amended: with the gradient registry built from the document, the
top-level fragments appear in the fixed order paths, rects, circles, lines,
groups (after the optional leading animation group): the emitted rank
sequence is sorted, and filtering the body by each element kind recovers
exactly the conversions of that kind's input list, in document order. -/
theorem claim_C7_amended (doc : SvgDoc) :
    List.Sorted (· ≤ ·) ((V1.assembleBody doc).map (fun e => V1.rankOf (V1.kindOf e))) ∧
    ((V1.assembleBody doc).filter (fun e => V1.kindOf e == V1.Kind.path) =
      doc.paths.map (fun p =>
        V1.Emitted.pathE (V1.convertPath (V1.buildGradientRegistry doc) p).1
          (V1.convertPath (V1.buildGradientRegistry doc) p).2)) ∧
    ((V1.assembleBody doc).filter (fun e => V1.kindOf e == V1.Kind.rect) =
      doc.rects.map (fun r =>
        V1.Emitted.rectE (V1.convertRect r).1 (V1.convertRect r).2)) ∧
    ((V1.assembleBody doc).filter (fun e => V1.kindOf e == V1.Kind.circle) =
      doc.circles.map (fun c => V1.Emitted.circleE (V1.convertCircle c))) ∧
    ((V1.assembleBody doc).filter (fun e => V1.kindOf e == V1.Kind.line) =
      doc.lines.map (fun l => V1.Emitted.lineE (V1.convertLine l))) ∧
    ((V1.assembleBody doc).filter (fun e => V1.kindOf e == V1.Kind.group) =
      doc.gs.map (V1.handleGroup (V1.buildGradientRegistry doc))) := by
  have hrank : ∀ (α : Type) (l : List α) (f : α → V1.Emitted) (k : ℕ),
      (∀ x, V1.rankOf (V1.kindOf (f x)) = k) →
      ∀ a ∈ (l.map f).map (fun e => V1.rankOf (V1.kindOf e)), a = k := by
    intro α l f k hf a ha
    rw [List.map_map] at ha
    obtain ⟨x, _, rfl⟩ := List.mem_map.mp ha
    exact hf x
  have hfilter_self : ∀ (α : Type) (l : List α) (f : α → V1.Emitted)
      (p : V1.Emitted → Bool), (∀ x, p (f x) = true) →
      (l.map f).filter p = l.map f := by
    intro α l f p hp
    exact List.filter_eq_self.mpr (fun a ha => by
      obtain ⟨x, _, rfl⟩ := List.mem_map.mp ha
      exact hp x)
  have hfilter_nil : ∀ (α : Type) (l : List α) (f : α → V1.Emitted)
      (p : V1.Emitted → Bool), (∀ x, p (f x) = false) →
      (l.map f).filter p = [] := by
    intro α l f p hp
    exact List.filter_eq_nil.mpr (fun a ha => by
      obtain ⟨x, _, rfl⟩ := List.mem_map.mp ha
      rw [hp x]
      exact fun hcc => Bool.noConfusion hcc)
  have hanim_nil : ∀ p : V1.Emitted → Bool,
      (∀ xs, p (V1.Emitted.animG xs) = false) →
      ((if doc.animates.isEmpty && doc.animateTransforms.isEmpty then []
        else
          [V1.Emitted.animG
            (doc.animates.map V1.convertAnimation ++
              doc.animateTransforms.map V1.convertAnimation)]) :
        List V1.Emitted).filter p = [] := by
    intro p hp
    split
    · rfl
    · simp [hp]
  refine ⟨?_, ?_, ?_, ?_, ?_, ?_⟩
  · rw [V1.assembleBody]
    rw [List.map_append, List.map_append, List.map_append, List.map_append,
      List.map_append]
    simp only [List.append_assoc]
    have hgs : ∀ a ∈ (doc.gs.map (V1.handleGroup (V1.buildGradientRegistry doc))).map
        (fun e => V1.rankOf (V1.kindOf e)), a = 5 := by
      intro a ha
      rw [List.map_map] at ha
      obtain ⟨g, _, rfl⟩ := List.mem_map.mp ha
      simp only [Function.comp]
      rw [handleGroup_kind]
      rfl
    have h5 := sorted_const_rank 5 _ hgs
    have h45 := sorted_block_append 4 _ _
      (hrank _ doc.lines (fun l => V1.Emitted.lineE (V1.convertLine l)) 4
        (fun _ => rfl))
      (fun b hb => (hgs b hb) ▸ (by omega : (4 : ℕ) ≤ 5)) h5
    have h345 := sorted_block_append 3 _ _
      (hrank _ doc.circles (fun c => V1.Emitted.circleE (V1.convertCircle c)) 3
        (fun _ => rfl))
      (fun b hb => le_trans (by omega) (h45.2 b hb)) h45.1
    have h2345 := sorted_block_append 2 _ _
      (hrank _ doc.rects
        (fun r => V1.Emitted.rectE (V1.convertRect r).1 (V1.convertRect r).2) 2
        (fun _ => rfl))
      (fun b hb => le_trans (by omega) (h345.2 b hb)) h345.1
    have h12345 := sorted_block_append 1 _ _
      (hrank _ doc.paths
        (fun p => V1.Emitted.pathE (V1.convertPath (V1.buildGradientRegistry doc) p).1
          (V1.convertPath (V1.buildGradientRegistry doc) p).2) 1
        (fun _ => rfl))
      (fun b hb => le_trans (by omega) (h2345.2 b hb)) h2345.1
    have hanim : ∀ a ∈ ((if doc.animates.isEmpty && doc.animateTransforms.isEmpty then []
        else
          [V1.Emitted.animG
            (doc.animates.map V1.convertAnimation ++
              doc.animateTransforms.map V1.convertAnimation)]) :
        List V1.Emitted).map (fun e => V1.rankOf (V1.kindOf e)), a = 0 := by
      intro a ha
      split at ha
      · simp at ha
      · simp only [List.map_cons, List.map_nil, List.mem_singleton] at ha
        rw [ha]
        rfl
    exact (sorted_block_append 0 _ _ hanim
      (fun b hb => le_trans (by omega) (h12345.2 b hb)) h12345.1).1
  · rw [V1.assembleBody]
    simp only [List.filter_append]
    rw [hanim_nil (fun e => V1.kindOf e == V1.Kind.path) (fun xs => rfl),
      hfilter_self _ doc.paths (fun p => V1.Emitted.pathE (V1.convertPath (V1.buildGradientRegistry doc) p).1
          (V1.convertPath (V1.buildGradientRegistry doc) p).2)
        (fun e => V1.kindOf e == V1.Kind.path) (fun x => rfl),
      hfilter_nil _ doc.rects (fun r => V1.Emitted.rectE (V1.convertRect r).1 (V1.convertRect r).2)
        (fun e => V1.kindOf e == V1.Kind.path) (fun x => rfl),
      hfilter_nil _ doc.circles (fun c => V1.Emitted.circleE (V1.convertCircle c))
        (fun e => V1.kindOf e == V1.Kind.path) (fun x => rfl),
      hfilter_nil _ doc.lines (fun l => V1.Emitted.lineE (V1.convertLine l))
        (fun e => V1.kindOf e == V1.Kind.path) (fun x => rfl),
      hfilter_nil _ doc.gs (V1.handleGroup (V1.buildGradientRegistry doc))
        (fun e => V1.kindOf e == V1.Kind.path) (fun g => by simp only [handleGroup_kind]; decide)]
    simp
  · rw [V1.assembleBody]
    simp only [List.filter_append]
    rw [hanim_nil (fun e => V1.kindOf e == V1.Kind.rect) (fun xs => rfl),
      hfilter_nil _ doc.paths (fun p => V1.Emitted.pathE (V1.convertPath (V1.buildGradientRegistry doc) p).1
          (V1.convertPath (V1.buildGradientRegistry doc) p).2)
        (fun e => V1.kindOf e == V1.Kind.rect) (fun x => rfl),
      hfilter_self _ doc.rects (fun r => V1.Emitted.rectE (V1.convertRect r).1 (V1.convertRect r).2)
        (fun e => V1.kindOf e == V1.Kind.rect) (fun x => rfl),
      hfilter_nil _ doc.circles (fun c => V1.Emitted.circleE (V1.convertCircle c))
        (fun e => V1.kindOf e == V1.Kind.rect) (fun x => rfl),
      hfilter_nil _ doc.lines (fun l => V1.Emitted.lineE (V1.convertLine l))
        (fun e => V1.kindOf e == V1.Kind.rect) (fun x => rfl),
      hfilter_nil _ doc.gs (V1.handleGroup (V1.buildGradientRegistry doc))
        (fun e => V1.kindOf e == V1.Kind.rect) (fun g => by simp only [handleGroup_kind]; decide)]
    simp
  · rw [V1.assembleBody]
    simp only [List.filter_append]
    rw [hanim_nil (fun e => V1.kindOf e == V1.Kind.circle) (fun xs => rfl),
      hfilter_nil _ doc.paths (fun p => V1.Emitted.pathE (V1.convertPath (V1.buildGradientRegistry doc) p).1
          (V1.convertPath (V1.buildGradientRegistry doc) p).2)
        (fun e => V1.kindOf e == V1.Kind.circle) (fun x => rfl),
      hfilter_nil _ doc.rects (fun r => V1.Emitted.rectE (V1.convertRect r).1 (V1.convertRect r).2)
        (fun e => V1.kindOf e == V1.Kind.circle) (fun x => rfl),
      hfilter_self _ doc.circles (fun c => V1.Emitted.circleE (V1.convertCircle c))
        (fun e => V1.kindOf e == V1.Kind.circle) (fun x => rfl),
      hfilter_nil _ doc.lines (fun l => V1.Emitted.lineE (V1.convertLine l))
        (fun e => V1.kindOf e == V1.Kind.circle) (fun x => rfl),
      hfilter_nil _ doc.gs (V1.handleGroup (V1.buildGradientRegistry doc))
        (fun e => V1.kindOf e == V1.Kind.circle) (fun g => by simp only [handleGroup_kind]; decide)]
    simp
  · rw [V1.assembleBody]
    simp only [List.filter_append]
    rw [hanim_nil (fun e => V1.kindOf e == V1.Kind.line) (fun xs => rfl),
      hfilter_nil _ doc.paths (fun p => V1.Emitted.pathE (V1.convertPath (V1.buildGradientRegistry doc) p).1
          (V1.convertPath (V1.buildGradientRegistry doc) p).2)
        (fun e => V1.kindOf e == V1.Kind.line) (fun x => rfl),
      hfilter_nil _ doc.rects (fun r => V1.Emitted.rectE (V1.convertRect r).1 (V1.convertRect r).2)
        (fun e => V1.kindOf e == V1.Kind.line) (fun x => rfl),
      hfilter_nil _ doc.circles (fun c => V1.Emitted.circleE (V1.convertCircle c))
        (fun e => V1.kindOf e == V1.Kind.line) (fun x => rfl),
      hfilter_self _ doc.lines (fun l => V1.Emitted.lineE (V1.convertLine l))
        (fun e => V1.kindOf e == V1.Kind.line) (fun x => rfl),
      hfilter_nil _ doc.gs (V1.handleGroup (V1.buildGradientRegistry doc))
        (fun e => V1.kindOf e == V1.Kind.line) (fun g => by simp only [handleGroup_kind]; decide)]
    simp
  · rw [V1.assembleBody]
    simp only [List.filter_append]
    rw [hanim_nil (fun e => V1.kindOf e == V1.Kind.group) (fun xs => rfl),
      hfilter_nil _ doc.paths (fun p => V1.Emitted.pathE (V1.convertPath (V1.buildGradientRegistry doc) p).1
          (V1.convertPath (V1.buildGradientRegistry doc) p).2)
        (fun e => V1.kindOf e == V1.Kind.group) (fun x => rfl),
      hfilter_nil _ doc.rects (fun r => V1.Emitted.rectE (V1.convertRect r).1 (V1.convertRect r).2)
        (fun e => V1.kindOf e == V1.Kind.group) (fun x => rfl),
      hfilter_nil _ doc.circles (fun c => V1.Emitted.circleE (V1.convertCircle c))
        (fun e => V1.kindOf e == V1.Kind.group) (fun x => rfl),
      hfilter_nil _ doc.lines (fun l => V1.Emitted.lineE (V1.convertLine l))
        (fun e => V1.kindOf e == V1.Kind.group) (fun x => rfl),
      hfilter_self _ doc.gs (V1.handleGroup (V1.buildGradientRegistry doc))
        (fun e => V1.kindOf e == V1.Kind.group) (fun g => by simp only [handleGroup_kind]; decide)]
    simp

/-- C8: a parse failure is reported and writes nothing — no partial file
exists because the single write happens only after the whole document is
assembled in memory; on success exactly one write occurs, carrying the
complete assembled document (body and closing terminator included). -/
theorem claim_C8_write_discipline :
    (∀ msg : String,
      (V1.run (.error msg)).errorReported = true ∧ (V1.run (.error msg)).writes = []) ∧
    (∀ doc : SvgDoc,
      (V1.run (.ok doc)).errorReported = false ∧
      (V1.run (.ok doc)).writes = [V1.assemble doc] ∧
      (V1.run (.ok doc)).writes.length = 1 ∧
      (V1.assemble doc).body = V1.assembleBody doc ∧
      (V1.assemble doc).closed = true) ∧
    (∀ parsed : Except String SvgDoc, (V1.run parsed).writes.length ≤ 1) := by
  refine ⟨fun msg => ⟨rfl, rfl⟩, fun doc => ⟨rfl, rfl, rfl, rfl, rfl⟩, fun parsed => ?_⟩
  cases parsed with
  | error e => simp [V1.run]
  | ok doc => simp [V1.run]
